/-
Verification of UE4-DDS-Tools against its specification.

The Lean definitions below are shallow embeddings of the Python sources:
  src/unreal/version.py       (VersionInfo)
  src/unreal/data_resource.py (bulk-data flag packing)
  src/unreal/city_hash.py     (CityHash64)
  src/unreal/archive.py       (String codec)
  src/directx/dds.py          (DDS header codec)
  src/unreal/utexture.py      (texture injection, offset fix-up)
Byte streams are `List Nat` (each element a byte value), machine integers
are `Nat`/`Int` with explicit reductions modulo 2^w where the Python code
relies on fixed-width behaviour.
-/
import Mathlib

/-! ### Version model (src/unreal/version.py)

`VersionInfo` stores `base_int` (e.g. "4.26" -> 42600) and an optional
custom tag ("ff7r" with base 4.18, "borderlands3" with base 4.22).
Ordering comparisons use `base_int`; equality with a custom string
matches the tag. -/

instance {ε α : Type _} [DecidableEq ε] [DecidableEq α] : DecidableEq (Except ε α) := fun x y =>
  match x, y with
  | Except.ok a, Except.ok b =>
      if h : a = b then isTrue (by rw [h])
      else isFalse (fun hh => h (Except.ok.inj hh))
  | Except.error a, Except.error b =>
      if h : a = b then isTrue (by rw [h])
      else isFalse (fun hh => h (Except.error.inj hh))
  | Except.ok _, Except.error _ => isFalse (fun hh => Except.noConfusion hh)
  | Except.error _, Except.ok _ => isFalse (fun hh => Except.noConfusion hh)

inductive CustomVersion where
  | ff7r
  | borderlands3
deriving DecidableEq, Repr

structure VersionInfo where
  base_str : String
  base_int : Nat
  custom : Option CustomVersion
deriving DecidableEq, Repr

/-- The custom tag as the string `VersionInfo.__eq__` compares with. -/
def CustomVersion.str : CustomVersion → String
  | CustomVersion.ff7r => "ff7r"
  | CustomVersion.borderlands3 => "borderlands3"

/-- Comparison `version == "s"` from `VersionInfo.__eq__`:
`item in [self.base, self.custom]`. -/
def VersionInfo.eqStr (v : VersionInfo) (s : String) : Bool :=
  v.base_str = s || (v.custom.map CustomVersion.str) = some s

/-- Comparison `version != [s1, s2, ...]` from `VersionInfo.__ne__`:
true when neither the base nor the custom string is in the list. -/
def VersionInfo.neList (v : VersionInfo) (l : List String) : Bool :=
  !(l.contains v.base_str) &&
    (match v.custom with
     | some c => !(l.contains c.str)
     | none => true)

/-- VersionInfo("ff7r") has base "4.18"; VersionInfo("borderlands3") has base "4.22". -/
def VersionInfo.wellFormed (v : VersionInfo) : Prop :=
  (v.custom = some CustomVersion.ff7r → v.base_int = 41800) ∧
  (v.custom = some CustomVersion.borderlands3 → v.base_int = 42200)

/-- Comparison `version > "x.y"`. -/
def VersionInfo.vgt (v : VersionInfo) (n : Nat) : Bool := n < v.base_int

/-- Comparison `version == "ff7r"` from `VersionInfo.__eq__`: the string
"ff7r" can only match the custom tag (numeric bases never equal it). -/
def VersionInfo.isFF7R (v : VersionInfo) : Bool :=
  v.custom = some CustomVersion.ff7r

/-- Comparison `version >= "x.y"` (on `base_int`, with the literal
already converted by `version_as_int`). -/
def VersionInfo.vge (v : VersionInfo) (n : Nat) : Bool := n ≤ v.base_int

/-- Comparison `version <= "x.y"`. -/
def VersionInfo.vle (v : VersionInfo) (n : Nat) : Bool := v.base_int ≤ n

/-! ### Bulk data flags (src/unreal/data_resource.py) -/

def BULKDATA_PayloadAtEndOfFile : Nat := 1 <<< 0
def BULKDATA_SingleUse : Nat := 1 <<< 3
def BULKDATA_Unused : Nat := 1 <<< 5
def BULKDATA_ForceInlinePayload : Nat := 1 <<< 6
def BULKDATA_PayloadInSeperateFile : Nat := 1 <<< 8
def BULKDATA_Force_NOT_InlinePayload : Nat := 1 <<< 10
def BULKDATA_OptionalPayload : Nat := 1 <<< 11
def BULKDATA_Size64Bit : Nat := 1 <<< 13
def BULKDATA_NoOffsetFixUp : Nat := 1 <<< 16

inductive BulkType where
  | UNKNOWN
  | UEXP
  | UBULK
  | UPTNL
  | NONE
deriving DecidableEq, Repr

/-- Mutable state of `DataResourceBase` relevant to flag packing. -/
structure DataResourceFlagsState where
  bulk_flags : Nat
  bulk_type : BulkType
  has_wrong_offset : Bool
  has_64bit_size : Bool
deriving DecidableEq, Repr

/-- `DataResourceBase.unpack_bulk_flags`: derive `bulk_type`,
`has_wrong_offset` and `has_64bit_size` from the raw flag bits, raising
for the repurposed `BULKDATA_NoOffsetFixUp` bit on UE <= 4.23. -/
def unpack_bulk_flags (s : DataResourceFlagsState) (v : VersionInfo) :
    Except String DataResourceFlagsState :=
  let bulk_type :=
    if s.bulk_flags &&& BULKDATA_ForceInlinePayload > 0 then BulkType.UEXP
    else if s.bulk_flags &&& BULKDATA_Unused > 0 then BulkType.NONE
    else if s.bulk_flags &&& BULKDATA_OptionalPayload > 0 then BulkType.UPTNL
    else BulkType.UBULK
  if v.isFF7R || v.vge 42600 then
    Except.ok { s with
      bulk_type := bulk_type
      has_wrong_offset := s.bulk_flags &&& BULKDATA_NoOffsetFixUp == 0
      has_64bit_size := s.bulk_flags &&& BULKDATA_Size64Bit > 0 }
  else if (s.bulk_flags &&& BULKDATA_NoOffsetFixUp != 0) && v.vle 42300 then
    Except.error "BULKDATA_UsesIODispatcher is not supported for this UE version."
  else
    Except.ok { s with
      bulk_type := bulk_type
      has_wrong_offset := true
      has_64bit_size := s.bulk_flags &&& BULKDATA_Size64Bit > 0 }

/-- `DataResourceBase.update_bulk_flags`: re-derive the raw flag bits from
`bulk_type` plus version-gated extra bits; for ubulk/uptnl on a version
without `BULKDATA_NoOffsetFixUp` it also sets `has_wrong_offset`. -/
def update_bulk_flags (s : DataResourceFlagsState) (v : VersionInfo) :
    DataResourceFlagsState :=
  let s :=
    match s.bulk_type with
    | BulkType.UEXP =>
        let flags := BULKDATA_ForceInlinePayload
        let flags := if !v.isFF7R then flags ||| BULKDATA_SingleUse else flags
        { s with bulk_flags := flags }
    | BulkType.NONE =>
        { s with bulk_flags := BULKDATA_Unused }
    | _ =>  -- ubulk or uptnl (and UNKNOWN, via the catch-all case)
        let flags := BULKDATA_PayloadAtEndOfFile
        let flags := if v.vge 41400 then flags ||| BULKDATA_Force_NOT_InlinePayload else flags
        let flags := if v.vge 41600 then flags ||| BULKDATA_PayloadInSeperateFile else flags
        let (flags, wrong) :=
          if v.isFF7R || v.vge 42600 then (flags ||| BULKDATA_NoOffsetFixUp, s.has_wrong_offset)
          else (flags, true)
        let flags := if s.bulk_type = BulkType.UPTNL then flags ||| BULKDATA_OptionalPayload else flags
        { s with bulk_flags := flags, has_wrong_offset := wrong }
  if s.has_64bit_size then { s with bulk_flags := s.bulk_flags ||| BULKDATA_Size64Bit } else s

/-! ### CityHash64 (src/unreal/city_hash.py)

Byte strings are `List Nat`; every intermediate is reduced with
`&&& MASK_64` exactly where the Python code masks. -/

def MASK_64 : Nat := 0xFFFFFFFFFFFFFFFF

def cityK0 : Nat := 0xc3a5c85c97cb3127
def cityK1 : Nat := 0xb492b66fbe98f273
def cityK2 : Nat := 0x9ae16a3b2f90404f

/-- `int.from_bytes(binary, "little")`. -/
def to_uint (bin : List Nat) : Nat :=
  bin.reverse.foldl (fun acc b => acc * 256 + b) 0

def fetch64 (bin : List Nat) : Nat := to_uint (bin.take 8)

def fetch32 (bin : List Nat) : Nat := to_uint (bin.take 4)

/-- Python negative slice `binary[-n:]`. -/
def lastBytes (n : Nat) (bin : List Nat) : List Nat := bin.drop (bin.length - n)

def bswap_64 (i : Nat) : Nat :=
  let i := i &&& MASK_64
  let bytes := (List.range 8).map (fun k => i / 256 ^ k % 256)
  bytes.foldl (fun acc b => acc * 256 + b) 0

def rotate (val shift : Nat) : Nat :=
  let val := val &&& MASK_64
  if shift = 0 then val
  else ((val >>> shift) ||| (val <<< (64 - shift))) &&& MASK_64

def shift_mix (val : Nat) : Nat :=
  let val := val &&& MASK_64
  (val ^^^ (val >>> 47)) &&& MASK_64

def hash_len_16 (u v mul : Nat) : Nat :=
  let a := ((u ^^^ v) * mul) &&& MASK_64
  let a := a ^^^ (a >>> 47)
  let b := ((v ^^^ a) * mul) &&& MASK_64
  let b := b ^^^ (b >>> 47)
  let b := b * mul
  b &&& MASK_64

def hash_len_16_2 (u v : Nat) : Nat :=
  hash_len_16 u v 0x9ddfea08eb382d69

def hash_len_0to16 (bin : List Nat) : Nat :=
  let length := bin.length
  if length ≥ 8 then
    let mul := cityK2 + length * 2
    let a := fetch64 bin + cityK2
    let b := fetch64 (lastBytes 8 bin)
    let c := rotate b 37 * mul + a
    let d := (rotate a 25 + b) * mul
    hash_len_16 c d mul
  else if length ≥ 4 then
    let mul := cityK2 + length * 2
    let a := fetch32 bin
    hash_len_16 (length + (a <<< 3)) (fetch32 (lastBytes 4 bin)) mul
  else if length > 0 then
    let a := bin.headD 0
    let b := bin.getD (length >>> 1) 0
    let c := bin.getLastD 0
    let y := (a + (b <<< 8)) &&& 0xFFFFFFFF
    let z := (length + (c <<< 2)) &&& 0xFFFFFFFF
    (shift_mix (y * cityK2 ^^^ z * cityK0) * cityK2) &&& MASK_64
  else cityK2

def hash_len_17to32 (bin : List Nat) : Nat :=
  let length := bin.length
  let mul := cityK2 + length * 2
  let a := fetch64 bin * cityK1
  let b := fetch64 (bin.drop 8)
  let c := fetch64 (lastBytes 8 bin) * mul
  let d := fetch64 (lastBytes 16 bin) * cityK2
  hash_len_16 (rotate (a + b) 43 + rotate c 30 + d)
    (a + rotate (b + cityK2) 18 + c) mul &&& MASK_64

def hash_len_33to64 (bin : List Nat) : Nat :=
  let length := bin.length
  let mul := cityK2 + length * 2
  let a := fetch64 bin * cityK2
  let b := fetch64 (bin.drop 8)
  let c := fetch64 (lastBytes 24 bin)
  let d := fetch64 (lastBytes 32 bin)
  let e := fetch64 (bin.drop 16) * cityK2
  let f := fetch64 (bin.drop 24) * 9
  let g := fetch64 (lastBytes 8 bin)
  let h := fetch64 (lastBytes 16 bin) * mul
  let u := rotate (a + g) 43 + (rotate b 30 + c) * 9
  let v := ((a + g) ^^^ d) + f + 1
  let w := bswap_64 ((u + v) * mul) + h
  let x := rotate (e + f) 42 + c
  let y := (bswap_64 ((v + w) * mul) + g) * mul
  let z := e + f + c
  let a := bswap_64 ((x + z) * mul + y) + b
  let b := shift_mix ((z + a) * mul + d + h) * mul
  (b + x) &&& MASK_64

def weak_hash_len32_with_seeds2 (w x y z a b : Nat) : Nat × Nat :=
  let a := a + w
  let b := rotate (b + a + z) 21
  let c := a
  let a := a + x
  let a := a + y
  let b := b + rotate a 44
  ((a + z) &&& MASK_64, (b + c) &&& MASK_64)

def weak_hash_len32_with_seeds (bin : List Nat) (a b : Nat) : Nat × Nat :=
  weak_hash_len32_with_seeds2 (fetch64 bin) (fetch64 (bin.drop 8))
    (fetch64 (bin.drop 16)) (fetch64 (bin.drop 24)) a b

/-- The `while (len(binary) > 0)` loop of `city_hash_64`; the Python
`z, x = x, z` swap is realised by the argument order of the
recursive call. -/
def city_loop (bin : List Nat) (x y z v_lo v_hi w_lo w_hi : Nat) :
    Nat × Nat × Nat × Nat × Nat × Nat × Nat :=
  if bin.length = 0 then (x, y, z, v_lo, v_hi, w_lo, w_hi)
  else
    let x := rotate (x + y + v_lo + fetch64 (bin.drop 8)) 37 * cityK1
    let y := rotate (y + v_hi + fetch64 (bin.drop 48)) 42 * cityK1
    let x := x ^^^ w_hi
    let y := y + v_lo + fetch64 (bin.drop 40)
    let z := rotate (z + w_lo) 33 * cityK1
    let vp := weak_hash_len32_with_seeds bin (v_hi * cityK1) (x + w_lo)
    let wp := weak_hash_len32_with_seeds (bin.drop 32) (z + w_hi) (y + fetch64 (bin.drop 16))
    city_loop (bin.drop 64) z y x vp.1 vp.2 wp.1 wp.2
  termination_by bin.length
  decreasing_by
    simp only [List.length_drop]
    omega

/-- `city_hash_64`; `(length - 1) & ~63` is written as its value
`(length - 1) / 64 * 64`. -/
def city_hash_64 (bin : List Nat) : Nat :=
  let length := bin.length
  if length ≤ 32 then
    if length ≤ 16 then hash_len_0to16 bin
    else hash_len_17to32 bin
  else if length ≤ 64 then hash_len_33to64 bin
  else
    let x := fetch64 (lastBytes 40 bin)
    let y := fetch64 (lastBytes 16 bin) + fetch64 (lastBytes 56 bin)
    let z := hash_len_16_2 (fetch64 (lastBytes 48 bin) + length) (fetch64 (lastBytes 24 bin))
    let v := weak_hash_len32_with_seeds (lastBytes 64 bin) length z
    let w := weak_hash_len32_with_seeds (lastBytes 32 bin) (y + cityK1) x
    let x := x * cityK1 + fetch64 bin
    let length2 := (length - 1) / 64 * 64
    let bin := bin.take length2
    let r := city_loop bin x y z v.1 v.2 w.1 w.2
    hash_len_16_2 (hash_len_16_2 r.2.2.1 r.2.2.2.2.1 + shift_mix r.2.1 * cityK1 + r.2.2.2.2.2.2)
      (hash_len_16_2 r.2.2.2.1 r.2.2.2.2.2.1 + r.1)

/-! ### Python string encodings

Python `str` values are modelled as `List Char` (Unicode scalar
values). These encoders mirror `str.encode("ascii")` and
`str.encode("utf-16-le")` for the strings the tool handles. -/

/-- `str.isascii()`. -/
def pyIsAscii (s : List Char) : Bool := s.all (fun c => c.toNat < 128)

/-- `str.encode("ascii")` for a string that passed `isascii`. -/
def asciiEncode (s : List Char) : List Nat := s.map Char.toNat

/-- UTF-16 code units of one character (surrogate pair above U+FFFF). -/
def utf16Units (c : Char) : List Nat :=
  if c.toNat < 0x10000 then [c.toNat]
  else [0xD800 + (c.toNat - 0x10000) / 0x400, 0xDC00 + (c.toNat - 0x10000) % 0x400]

/-- `str.encode("utf-16-le")`: each code unit as two little-endian bytes. -/
def utf16Encode (s : List Char) : List Nat :=
  (s.flatMap utf16Units).flatMap (fun u => [u % 256, u / 256])

/-! ### String codec (src/unreal/archive.py, classes Int32 and String)

The archive cursor is a position into a `List Nat` byte stream.
`ar.read(n)` returns up to `n` bytes (short reads at end of stream do
not raise, mirroring `BytesIO`), and a relative seek may move the
cursor past the end of the stream. -/

/-- `ar.read(n)` at cursor `pos`. -/
def streamRead (bs : List Nat) (pos n : Nat) : List Nat := (bs.drop pos).take n

/-- `int.from_bytes(l, "little", signed=True)` for `l` of any length
(an empty byte string decodes to 0). -/
def int_from_bytes_signed (l : List Nat) : Int :=
  let u := to_uint l
  if 2 * u ≥ 256 ^ l.length then (u : Int) - (256 : Int) ^ l.length else (u : Int)

def natToBytesLE (u n : Nat) : List Nat :=
  (List.range n).map (fun k => u / 256 ^ k % 256)

/-- `v.to_bytes(n, "little", signed=True)`: raises `OverflowError`
outside the signed range. -/
def int_to_bytes_signed (v : Int) (n : Nat) : Except String (List Nat) :=
  if v < -(2 ^ (8 * n - 1) : Nat) ∨ (2 ^ (8 * n - 1) : Nat) ≤ v then
    Except.error "OverflowError: int too big to convert"
  else
    Except.ok (natToBytesLE ((v % (2 ^ (8 * n) : Nat)).toNat) n)

/-- Little-endian byte pairs to UTF-16 code units; an odd byte count is
a `UnicodeDecodeError` (truncated data). -/
def bytesToUnits : List Nat → Except String (List Nat)
  | [] => Except.ok []
  | [_] => Except.error "UnicodeDecodeError: truncated data"
  | b1 :: b2 :: rest => do
      let us ← bytesToUnits rest
      Except.ok ((b1 + 256 * b2) :: us)

/-- UTF-16 code units to characters; a lone or misplaced surrogate is a
`UnicodeDecodeError`. -/
def utf16DecodeUnits : List Nat → Except String (List Char)
  | [] => Except.ok []
  | u :: rest =>
      if u < 0xD800 ∨ 0xE000 ≤ u then do
        let cs ← utf16DecodeUnits rest
        Except.ok (Char.ofNat u :: cs)
      else if u < 0xDC00 then
        match rest with
        | u2 :: rest2 =>
            if 0xDC00 ≤ u2 ∧ u2 < 0xE000 then do
              let cs ← utf16DecodeUnits rest2
              Except.ok (Char.ofNat (0x10000 + (u - 0xD800) * 0x400 + (u2 - 0xDC00)) :: cs)
            else Except.error "UnicodeDecodeError: illegal UTF-16 surrogate"
        | [] => Except.error "UnicodeDecodeError: unexpected end of data"
      else Except.error "UnicodeDecodeError: illegal encoding"

/-- `bytes.decode("ascii")`: any byte 128 or above raises. -/
def asciiDecode : List Nat → Except String (List Char)
  | [] => Except.ok []
  | b :: rest =>
      if b < 128 then do
        let cs ← asciiDecode rest
        Except.ok (Char.ofNat b :: cs)
      else Except.error "UnicodeDecodeError: ordinal not in range(128)"

/-- `String.read`: signed 32-bit length prefix, `None` when it is zero,
UTF-16LE payload for a negative prefix, ASCII for a positive one, and a
relative seek over the terminator. Returns the value and the new
cursor. -/
def string_read (bs : List Nat) (pos : Nat) : Except String (Option (List Char) × Nat) :=
  let prefixBytes := streamRead bs pos 4
  let pos1 := pos + prefixBytes.length
  let num : Int := int_from_bytes_signed prefixBytes
  if num = 0 then Except.ok (none, pos1)
  else
    let utf16 := num < 0
    let n : Nat := num.natAbs
    let width := if utf16 then 2 else 1
    let raw := streamRead bs pos1 ((n - 1) * width)
    let pos2 := pos1 + raw.length
    if utf16 then do
      let units ← bytesToUnits raw
      let s ← utf16DecodeUnits units
      Except.ok (some s, pos2 + 2)
    else do
      let s ← asciiDecode raw
      Except.ok (some s, pos2 + 1)

/-- `String.write`: emits the signed 32-bit prefix
`(len(val)+1) * (1 - 2*utf16)`, the encoded characters, and one (two
for UTF-16) zero terminator bytes. -/
def string_write (val : List Char) : Except String (List Nat) := do
  let num : Int := val.length + 1
  let utf16 := !(pyIsAscii val)
  let pfx ← int_to_bytes_signed (num * (1 - 2 * (if utf16 then 1 else 0))) 4
  let str_byte := if utf16 then utf16Encode val else asciiEncode val
  Except.ok (pfx ++ str_byte ++ List.replicate (if utf16 then 2 else 1) 0)

/-! ### DXGI format data (src/directx/dxgi_format.py)

The final-generation `dxgi_format.py` module is not present in the
sources; its enum values and byte-per-pixel table are taken from the
earlier generation `src/dds.py` of this repository, and the few
operations that exist only in the final generation are modelled from
the spec. DXGI formats are plain `Nat` enum values. -/

def DXGI_B8G8R8A8_UNORM : Nat := 87
def DXGI_BC1_UNORM : Nat := 71
def DXGI_BC7_UNORM : Nat := 98
def DXGI_R8G8_UNORM : Nat := 49
def DXGI_R8G8B8A8_UNORM : Nat := 28

/-- Modelled from the spec: `DXGI_FORMAT.get_max_dx10` from the missing
`dxgi_format.py` — the largest DXGI value DX10 headers support (the
last canonical value, 132; the ASTC extensions above it are not valid
in a DX10 header). -/
def dxgi_get_max_dx10 : Nat := 132

/-- Modelled from the spec: valid enum members of the missing
`DXGI_FORMAT` enum (0..115 and 130..134, per the earlier-generation
enum in `src/dds.py`); `DXGI_FORMAT(fmt)` raises for other values. -/
def dxgiIsValid (n : Nat) : Bool :=
  n ≤ 115 || (130 ≤ n && n ≤ 134)

/-- Modelled from the spec: `DXGI_FORMAT.is_compressed` from the
missing `dxgi_format.py` — the block-compressed families (BC1–BC5 are
values 70–84, BC6H/BC7 are 94–99, ASTC 133 and above). -/
def dxgi_is_compressed (n : Nat) : Bool :=
  (70 ≤ n && n ≤ 84) || (94 ≤ n && n ≤ 99) || 133 ≤ n

/-- `DXGI_BYTE_PER_PIXEL` (values from the earlier-generation table in
`src/dds.py`; a missing key is a `KeyError`). The Python table holds
floats that are all multiples of one eighth and exactly representable;
here each entry is scaled by 8 (so BC1's 0.5 bytes per pixel is stored
as 4), and every byte-size computation divides the product by 8, which
agrees exactly with the float arithmetic and `int()` truncation. -/
def DXGI_BYTE_PER_PIXEL : List (Nat × Nat) :=
  [(0, 0), (1, 128), (2, 128), (3, 128), (4, 128), (5, 96), (6, 96), (7, 96), (8, 96),
   (9, 64), (10, 64), (11, 64), (12, 64), (13, 64), (14, 64), (15, 64), (16, 64), (17, 64),
   (18, 64), (19, 64), (20, 64), (21, 64), (22, 64), (23, 32), (24, 32), (25, 32), (26, 32),
   (27, 32), (28, 32), (29, 32), (30, 32), (31, 32), (32, 32), (33, 32), (34, 32), (35, 32),
   (36, 32), (37, 32), (38, 32), (39, 32), (40, 32), (41, 32), (42, 32), (43, 32), (44, 32),
   (45, 32), (46, 32), (47, 32), (48, 16), (49, 16), (50, 16), (51, 16), (52, 16), (53, 16),
   (54, 16), (55, 16), (56, 16), (57, 16), (58, 16), (59, 16), (60, 8), (61, 8), (62, 8),
   (63, 8), (64, 8), (65, 8), (66, 1), (67, 32), (68, 32), (69, 32),
   (70, 4), (71, 4), (72, 4), (73, 8), (74, 8), (75, 8), (76, 8), (77, 8),
   (78, 8), (79, 4), (80, 4), (81, 4), (82, 8), (83, 8), (84, 8),
   (85, 16), (86, 16), (87, 32), (88, 32), (89, 32), (90, 32), (91, 32), (92, 32), (93, 32),
   (94, 8), (95, 8), (96, 8), (97, 8), (98, 8), (99, 8), (100, 32), (101, 32), (102, 64),
   (103, 12), (104, 24), (105, 24), (106, 12), (107, 32), (108, 64), (109, 64),
   (110, 12), (111, 8), (112, 8), (113, 8), (114, 16), (115, 16),
   (130, 16), (131, 16), (132, 24), (133, 64), (134, 64)]

/-- Dict lookup `DXGI_BYTE_PER_PIXEL[fmt]` (eight times the
byte-per-pixel value). -/
def dxgiBpp (n : Nat) : Except String Nat :=
  match DXGI_BYTE_PER_PIXEL.lookup n with
  | some q => Except.ok q
  | none => Except.error "KeyError: unknown DXGI format"

/-- `FOURCC_TO_DXGI` (groups of fourCC values and the DXGI format they
map to, from the earlier-generation table in `src/dds.py`; single-byte
entries are legacy D3D format codes). -/
def FOURCC_TO_DXGI : List (List (List Nat) × Nat) :=
  [([[68, 88, 84, 49]], 71),                              -- DXT1 -> BC1_UNORM
   ([[68, 88, 84, 50], [68, 88, 84, 51]], 74),            -- DXT2/DXT3 -> BC2_UNORM
   ([[68, 88, 84, 52], [68, 88, 84, 53]], 77),            -- DXT4/DXT5 -> BC3_UNORM
   ([[65, 84, 73, 49], [66, 67, 52, 85], [51, 68, 67, 49]], 80),  -- ATI1/BC4U/3DC1
   ([[65, 84, 73, 50], [66, 67, 53, 85], [51, 68, 67, 50]], 83),  -- ATI2/BC5U/3DC2
   ([[66, 67, 52, 83]], 81),                              -- BC4S
   ([[66, 67, 53, 83]], 84),                              -- BC5S
   ([[66, 67, 54, 72]], 95),                              -- BC6H -> BC6H_UF16
   ([[66, 67, 55, 76], [66, 67, 55]], 98),                -- BC7L/BC7 -> BC7_UNORM
   ([[82, 71, 66, 71]], 68),                              -- RGBG
   ([[71, 82, 71, 66]], 69),                              -- GRGB
   ([[89, 85, 89, 50], [85, 89, 86, 89]], 107),           -- YUY2/UYVY
   ([[36]], 11), ([[110]], 13), ([[111]], 54), ([[112]], 34),
   ([[113]], 10), ([[114]], 41), ([[115]], 16), ([[116]], 2)]

/-- Modelled from the spec: `BITMASK_TO_DXGI` from the missing
`dxgi_format.py` — legacy bitmask encodings and their DXGI formats
(the lookup that backs the bitmask fallback of §4.7). -/
def BITMASK_TO_DXGI : List (List Nat × Nat) :=
  [([0xff0000, 0xff00, 0xff, 0xff000000], 87),            -- B8G8R8A8
   ([0xff, 0xff00, 0xff0000, 0xff000000], 28),            -- R8G8B8A8
   ([0xff, 0xff00, 0, 0], 49),                            -- R8G8
   ([0xffff, 0xffff0000, 0, 0], 34),                      -- R16G16
   ([0x7c00, 0x3e0, 0x1f, 0x8000], 86),                   -- B5G5R5A1
   ([0xf800, 0x7e0, 0x1f, 0], 85),                        -- B5G6R5
   ([0xff, 0, 0, 0], 61),                                 -- R8
   ([0xffff, 0, 0, 0], 56),                               -- R16
   ([0, 0, 0, 0xff], 65)]                                 -- A8

/-- Modelled from the spec: `DXGI_FORMAT.get_signed` from the missing
`dxgi_format.py` — map a detected format to its signed (SNORM)
variant for the legacy bump-map flag. -/
def dxgi_get_signed (n : Nat) : Nat :=
  if n = 28 then 31            -- R8G8B8A8_UNORM -> R8G8B8A8_SNORM
  else if n = 34 then 37       -- R16G16_UNORM -> R16G16_SNORM
  else if n = 49 then 51       -- R8G8_UNORM -> R8G8_SNORM
  else if n = 56 then 58       -- R16_UNORM -> R16_SNORM
  else if n = 80 then 81       -- BC4_UNORM -> BC4_SNORM
  else if n = 83 then 84       -- BC5_UNORM -> BC5_SNORM
  else n

/-! ### DDS header codec (src/directx/dds.py) -/

/-- `PF_FLAGS.FOURCC`. -/
def PF_FLAGS_FOURCC : Nat := 0x4
/-- `PF_FLAGS.BUMPDUDV`. -/
def PF_FLAGS_BUMPDUDV : Nat := 0x80000

/-- `UNCANONICAL_FOURCC` (fourCC values of unsupported legacy
encodings), as NUL-truncated byte strings. -/
def UNCANONICAL_FOURCC : List (List Nat) :=
  [[80, 84, 67, 50], [80, 84, 67, 52], [65, 84, 67], [65, 84, 67, 65],
   [65, 84, 67, 69], [65, 84, 67, 73], [65, 83, 52, 52], [65, 83, 53, 53],
   [65, 83, 54, 54], [65, 83, 56, 53], [65, 83, 56, 54], [65, 83, 58, 53]]

structure DDSPixelFormat where
  pf_size : Nat
  pf_flags : Nat
  fourCC : List Nat      -- four raw bytes
  bit_count : Nat
  bit_mask : List Nat    -- four 32-bit values
deriving DecidableEq, Repr

/-- Reading a `c_char * 4` field returns the bytes up to the first NUL. -/
def fourCCValue (l : List Nat) : List Nat := l.takeWhile (fun b => b ≠ 0)

def DDSPixelFormat.is_canonical (pf : DDSPixelFormat) : Bool :=
  !(UNCANONICAL_FOURCC.contains (fourCCValue pf.fourCC))

def DDSPixelFormat.is_dx10 (pf : DDSPixelFormat) : Bool :=
  fourCCValue pf.fourCC = [68, 88, 49, 48]

/-- `DDSPixelFormat.is_bit_mask`. -/
def DDSPixelFormat.is_bit_mask (pf : DDSPixelFormat) (mask : List Nat) : Bool :=
  (pf.bit_mask.zip mask).all (fun p => p.1 = p.2)

/-- `DDSPixelFormat.get_dxgi`: fourCC lookup, then bitmask fallback
(last match wins), defaulting to B8G8R8A8 with a logged warning, with
the bump-map flag selecting the signed variant. -/
def DDSPixelFormat.get_dxgi (pf : DDSPixelFormat) : Except String Nat :=
  if !pf.is_canonical then
    Except.error "Non-standard fourCC detected."
  else
    let fromCC :=
      if pf.pf_flags &&& PF_FLAGS_FOURCC ≠ 0 then
        (FOURCC_TO_DXGI.find? (fun p => p.1.contains (fourCCValue pf.fourCC))).map Prod.snd
      else none
    match fromCC with
    | some dxgi => Except.ok dxgi
    | none =>
        let detected := (BITMASK_TO_DXGI.filter (fun p => pf.is_bit_mask p.1)).getLast?
        match detected with
        | none => Except.ok DXGI_B8G8R8A8_UNORM
        | some p =>
            if pf.pf_flags &&& PF_FLAGS_BUMPDUDV ≠ 0 then Except.ok (dxgi_get_signed p.2)
            else Except.ok p.2

/-- `DDSPixelFormat.update`. -/
def DDSPixelFormat.update (pf : DDSPixelFormat) (new_dxgi : Nat) : DDSPixelFormat :=
  if dxgi_get_max_dx10 < new_dxgi then
    match FOURCC_TO_DXGI.find? (fun p => p.2 = new_dxgi) with
    | some p => { pf with fourCC := p.1.headD [] }
    | none => pf
  else
    { pf with fourCC := [68, 88, 49, 48] }

structure DX10Header where
  dxgi_format : Nat
  resource_dimension : Nat
  misc_flags : Nat
  array_size : Nat
  misc_flags2 : Nat
deriving DecidableEq, Repr

/-- `DX10Header.get_dxgi`: values beyond DX10's maximum raise, and the
`DXGI_FORMAT(fmt)` enum constructor raises on a non-member value. -/
def DX10Header.get_dxgi (h : DX10Header) : Except String Nat :=
  if dxgi_get_max_dx10 < h.dxgi_format then
    Except.error "Unsupported DXGI format detected."
  else if !dxgiIsValid h.dxgi_format then
    Except.error "ValueError: not a valid DXGI_FORMAT"
  else
    Except.ok h.dxgi_format

def DX10Header.update (_h : DX10Header) (dxgi_format : Nat) (is_cube is_3d : Bool)
    (array_size : Nat) : DX10Header :=
  { dxgi_format := dxgi_format
    resource_dimension := 3 + (if is_3d then 1 else 0)
    misc_flags := 4 * (if is_cube then 1 else 0)
    array_size := array_size
    misc_flags2 := 0 }

def DX10Header.is_array (h : DX10Header) : Bool := 1 < h.array_size

structure DDSHeader where
  magic : List Nat
  head_size : Nat
  flags : Nat
  height : Nat
  width : Nat
  pitch_or_linear_size : Nat
  depth : Nat
  mipmap_num : Nat
  reserved : List Nat
  tool_name : List Nat
  null_field : Nat
  pixel_format : DDSPixelFormat
  caps : Nat
  caps2 : Nat
  reserved2 : List Nat
  dx10_header : DX10Header
  dxgi_format : Nat
  byte_per_pixel : Nat  -- scaled by 8, see DXGI_BYTE_PER_PIXEL
deriving DecidableEq, Repr

def DDS_MAGIC : List Nat := [68, 68, 83, 32]

/-- Byte image of a freshly constructed `DDSHeader()` (the values its
`__init__` assigns; all other ctypes fields are zero). `readinto` on a
short stream leaves the unfilled tail of these bytes in place. -/
def defaultHeaderBytes : List Nat :=
  DDS_MAGIC ++ [124, 0, 0, 0] ++ List.replicate 20 0 ++ [1, 0, 0, 0] ++
  List.replicate 36 0 ++ [85, 69, 68, 84] ++ List.replicate 4 0 ++
  [32, 0, 0, 0] ++ [4, 0, 0, 0] ++ [68, 88, 49, 48] ++ List.replicate 20 0 ++
  List.replicate 20 0

/-- `f.readinto(struct)`: fill the struct's bytes from the stream,
keeping the old bytes where the stream is short; returns the new
buffer and the number of bytes consumed. -/
def readIntoFill (bs default : List Nat) : List Nat × Nat :=
  let n := min bs.length default.length
  (bs.take n ++ default.drop n, n)

/-- 32-bit little-endian field at byte offset `i`. -/
def u32At (buf : List Nat) (i : Nat) : Nat := to_uint ((buf.drop i).take 4)

/-- Decode the 128 header bytes into the ctypes field values. -/
def ddsHeaderOfBuf (buf : List Nat) : DDSHeader :=
  { magic := buf.take 4
    head_size := u32At buf 4
    flags := u32At buf 8
    height := u32At buf 12
    width := u32At buf 16
    pitch_or_linear_size := u32At buf 20
    depth := u32At buf 24
    mipmap_num := u32At buf 28
    reserved := (List.range 9).map (fun k => u32At buf (32 + 4 * k))
    tool_name := (buf.drop 68).take 4
    null_field := u32At buf 72
    pixel_format :=
      { pf_size := u32At buf 76
        pf_flags := u32At buf 80
        fourCC := (buf.drop 84).take 4
        bit_count := u32At buf 88
        bit_mask := (List.range 4).map (fun k => u32At buf (92 + 4 * k)) }
    caps := u32At buf 108
    caps2 := u32At buf 112
    reserved2 := (List.range 3).map (fun k => u32At buf (116 + 4 * k))
    dx10_header := ⟨0, 0, 0, 0, 0⟩
    dxgi_format := 0
    byte_per_pixel := 0 }

def dx10OfBuf (buf : List Nat) : DX10Header :=
  { dxgi_format := u32At buf 0
    resource_dimension := u32At buf 4
    misc_flags := u32At buf 8
    array_size := u32At buf 12
    misc_flags2 := u32At buf 16 }

def DDSHeader.is_cube (h : DDSHeader) : Bool := h.caps2 &&& 0x200 ≠ 0

def DDSHeader.is_3d (h : DDSHeader) : Bool := 1 < h.depth

def DDSHeader.has_mips (h : DDSHeader) : Bool := 1 < h.mipmap_num

def DDSHeader.get_array_size (h : DDSHeader) : Nat := h.dx10_header.array_size

def DDSHeader.get_texture_type (h : DDSHeader) : String :=
  if h.is_3d then "3D"
  else
    let t := if h.is_cube then "Cube" else "2D"
    if h.dx10_header.is_array then t ++ "Array" else t

/-- `DDSHeader.read`: fill the header struct, normalise zero mip count
and zero depth to one, read the DX10 extension or derive the format
from the legacy pixel-format block, look up bytes-per-pixel, then
check magic, header size and resource dimension. Returns the header
and the number of bytes consumed. -/
def dds_header_read (bs : List Nat) : Except String (DDSHeader × Nat) := do
  let (buf, n) := readIntoFill bs defaultHeaderBytes
  let head := ddsHeaderOfBuf buf
  let head := { head with
    mipmap_num := head.mipmap_num + (if head.mipmap_num = 0 then 1 else 0)
    depth := head.depth + (if head.depth = 0 then 1 else 0) }
  let (head, pos) ←
    if head.pixel_format.is_dx10 then do
      let (dbuf, m) := readIntoFill (bs.drop n) (List.replicate 20 0)
      let dx10 := dx10OfBuf dbuf
      let dxgi ← dx10.get_dxgi
      pure ({ head with dx10_header := dx10, dxgi_format := dxgi }, n + m)
    else do
      let dxgi ← head.pixel_format.get_dxgi
      let head := { head with dxgi_format := dxgi }
      pure ({ head with
              dx10_header := head.dx10_header.update dxgi head.is_cube head.is_3d 1 }, n)
  let bpp ← dxgiBpp head.dxgi_format
  let head := { head with byte_per_pixel := bpp }
  if head.magic ≠ DDS_MAGIC ∨ head.head_size ≠ 124 then
    Except.error "Not DDS file."
  else if head.dx10_header.resource_dimension = 2 then
    Except.error "1D textures are unsupported."
  else
    Except.ok (head, pos)

/-- `DDS_FLAGS.get_flags`. -/
def DDS_FLAGS_get_flags (is_compressed is_3d : Bool) : Nat :=
  let flags := 0x1 ||| 0x2 ||| 0x4 ||| 0x1000 ||| 0x20000
  let flags := if is_compressed then flags ||| 0x8 else flags ||| 0x80000
  if is_3d then flags ||| 0x800000 else flags

/-- `DDS_CAPS.get_caps`. -/
def DDS_CAPS_get_caps (has_mips is_cube : Bool) : Nat :=
  let caps := 0x1000
  let caps := if has_mips then caps ||| 0x400008 else caps
  if is_cube then caps ||| 0x8 else caps

/-- `DDS_CAPS2.get_caps2`. -/
def DDS_CAPS2_get_caps2 (is_cube is_3d : Bool) : Nat :=
  let caps2 := if is_cube then (0 : Nat) ||| 0xFE00 else 0
  if is_3d then caps2 ||| 0x200000 else caps2

/-- `DDSHeader.update`: store the new dimensions and format, then
recompute flags, pitch-or-linear-size (`int(w*h*bpp)` for compressed
formats, `int(w*bpp)` otherwise), caps, caps2, the DX10 header and the
pixel-format block. Failing bytes-per-pixel lookup is a `KeyError`. -/
def dds_header_update (h : DDSHeader) (width height depth mipmap_num dxgi_format : Nat)
    (is_cube : Bool) (array_size : Nat) : Except String DDSHeader := do
  let h := { h with
    width := width, height := height, depth := depth,
    mipmap_num := mipmap_num, dxgi_format := dxgi_format }
  let has_mips := h.has_mips
  let is_3d := h.is_3d
  let bpp ← dxgiBpp h.dxgi_format
  let is_compressed := dxgi_is_compressed h.dxgi_format
  let h := { h with
    flags := DDS_FLAGS_get_flags is_compressed is_3d
    pitch_or_linear_size :=
      if is_compressed then width * height * bpp / 8
      else width * bpp / 8
    caps := DDS_CAPS_get_caps has_mips is_cube
    caps2 := DDS_CAPS2_get_caps2 is_cube is_3d }
  let h := { h with
    dx10_header := h.dx10_header.update h.dxgi_format is_cube is_3d array_size
    pixel_format := h.pixel_format.update h.dxgi_format }
  Except.ok h

/-! ### Texture model (src/unreal/utexture.py)

`PF_TO_DXGI` keeps the source's pixel-format table. A `Umip` carries
the mipmap fields the claims touch; the final-generation
`unreal/umipmap.py` module is not in the sources, so its thin
delegation methods are modelled from the spec, while the bulk-type
state they delegate to is `DataResourceBase` from
src/unreal/data_resource.py. -/

def PF_TO_DXGI : List (String × Nat) :=
  [("PF_DXT1", 71), ("PF_DXT3", 74), ("PF_DXT5", 77), ("PF_BC4", 80), ("PF_BC5", 83),
   ("PF_BC6H", 95), ("PF_BC7", 98), ("PF_A1", 66), ("PF_A8", 65), ("PF_G8", 61),
   ("PF_R8", 61), ("PF_R8G8", 49), ("PF_G16", 56), ("PF_G16R16", 34),
   ("PF_B8G8R8A8", 87), ("PF_A2B10G10R10", 24), ("PF_A16B16G16R16", 11),
   ("PF_FloatRGB", 26), ("PF_FloatR11G11B10", 26), ("PF_FloatRGBA", 10),
   ("PF_A32B32G32R32F", 2), ("PF_B5G5R5A1_UNORM", 86), ("PF_ASTC_4x4", 134)]

structure Umip where
  width : Nat
  height : Nat
  depth : Nat
  pixel_num : Nat
  data : List Nat
  bulk_type : BulkType
  has_wrong_offset : Bool
  has_64bit_size : Bool
  data_size : Nat
  offset : Int
  offset_to_offset : Nat
deriving DecidableEq, Repr

def defaultUmip : Umip :=
  { width := 0, height := 0, depth := 0, pixel_num := 0, data := [],
    bulk_type := BulkType.UNKNOWN, has_wrong_offset := false,
    has_64bit_size := false, data_size := 0, offset := 0, offset_to_offset := 0 }

def Umip.has_uexp_bulk (m : Umip) : Bool := m.bulk_type = BulkType.UEXP
def Umip.has_no_bulk (m : Umip) : Bool := m.bulk_type = BulkType.NONE
def Umip.has_ubulk_bulk (m : Umip) : Bool := m.bulk_type = BulkType.UBULK
def Umip.has_uptnl_bulk (m : Umip) : Bool := m.bulk_type = BulkType.UPTNL

/-- Modelled from the spec: `Umipmap.update` of the missing
final-generation `unreal/umipmap.py` — store the payload and
dimensions, then delegate to `DataResourceBase.update` (and
`LegacyDataResource.update`, src/unreal/data_resource.py), which sets
`bulk_type` to UEXP or UBULK from the boolean, zeroes the offset and
records the 64-bit-size flag. -/
def umip_update (m : Umip) (data : List Nat) (size : Nat × Nat) (depth : Nat)
    (is_uexp : Bool) : Umip :=
  { m with
    data := data
    data_size := data.length
    width := size.1
    height := size.2
    depth := depth
    pixel_num := size.1 * size.2
    offset := 0
    bulk_type := if is_uexp then BulkType.UEXP else BulkType.UBULK
    has_64bit_size := decide (data.length > 2 ^ 31) }

structure Utexture where
  version : VersionInfo
  pixel_format : String
  dxgi_format : Nat
  byte_per_pixel : Nat  -- scaled by 8, see DXGI_BYTE_PER_PIXEL
  is_cube : Bool
  is_3d : Bool
  is_array : Bool
  num_slices : Nat
  has_ubulk : Bool
  has_uptnl : Bool
  has_opt_data : Bool
  first_mip_to_serialize : Nat
  imported_width : Nat
  imported_height : Nat
  mipmaps : List Umip
deriving DecidableEq, Repr

def Utexture.has_supported_format (t : Utexture) : Bool :=
  (PF_TO_DXGI.lookup t.pixel_format).isSome

def Utexture.is_empty (t : Utexture) : Bool := t.mipmaps.length = 0

def Utexture.get_texture_type (t : Utexture) : String :=
  if t.is_3d then "3D"
  else
    let s := if t.is_cube then "Cube" else "2D"
    if t.is_array then s ++ "Array" else s

def Utexture.get_array_size (t : Utexture) : Nat :=
  if t.is_3d then 1
  else if t.is_cube then t.num_slices / 6
  else t.num_slices

def Utexture.get_depth (t : Utexture) : Nat :=
  if t.is_3d then t.num_slices else 1

/-- `Utexture.get_max_size`: dimensions of the first mip (0,0 when
empty). -/
def Utexture.get_max_size (t : Utexture) : Nat × Nat :=
  if t.is_empty then (0, 0)
  else
    let m := t.mipmaps.headD defaultUmip
    (m.width, m.height)

/-- `Utexture.get_max_uexp_size`: dimensions of the first uexp- or
none-resident mip; the Python loop variable keeps the last mip when no
mip matches. -/
def Utexture.get_max_uexp_size (t : Utexture) : Nat × Nat :=
  if t.is_empty then (0, 0)
  else
    match t.mipmaps.find? (fun m => m.has_uexp_bulk || m.has_no_bulk) with
    | some m => (m.width, m.height)
    | none =>
        let m := t.mipmaps.getLastD defaultUmip
        (m.width, m.height)

/-- `Utexture.get_mipmap_num`: (uexp, ubulk, uptnl) mip counts. -/
def get_mipmap_num (mips : List Umip) : Nat × Nat × Nat :=
  mips.foldl
    (fun acc m =>
      if m.has_uexp_bulk || m.has_no_bulk then (acc.1 + 1, acc.2.1, acc.2.2)
      else if m.has_uptnl_bulk then (acc.1, acc.2.1, acc.2.2 + 1)
      else (acc.1, acc.2.1 + 1, acc.2.2))
    (0, 0, 0)

/-- A loaded DDS as `Utexture.inject_dds` receives it
(src/directx/dds.py, class DDS). -/
structure DDSData where
  header : DDSHeader
  slice_bin_list : List (List Nat)
  mipmap_size_list : List (Nat × Nat)
deriving DecidableEq, Repr

def DDSData.get_texture_type (d : DDSData) : String := d.header.get_texture_type

def DDSData.get_array_size (d : DDSData) : Nat := d.header.get_array_size

/-- The mip-construction loop of `Utexture.inject_dds`: per mip, slice
`int(w*h*byte_per_pixel)` bytes out of every slice buffer, and place
the mip in ubulk exactly when the texture had ubulk mips, the mip is
not the last one, and its pixel count exceeds the pre-injection
largest uexp mip's pixel count. -/
def inject_build (bpp : Nat) (slices : List (List Nat)) (has_ubulk : Bool)
    (uexp_px : Nat) (new_depth : Nat) (total : Nat) :
    List (Nat × Nat) → Nat → Nat → List Umip
  | [], _, _ => []
  | size :: rest, i, offset =>
      let bin_size := size.1 * size.2 * bpp / 8
      let data := (slices.map (fun sb => (sb.drop offset).take bin_size)).foldl
        (fun a b => a ++ b) []
      let is_uexp := !(has_ubulk && decide (i + 1 < total) &&
        decide (size.1 * size.2 > uexp_px))
      umip_update defaultUmip data size new_depth is_uexp ::
        inject_build bpp slices has_ubulk uexp_px new_depth total rest (i + 1)
          (offset + bin_size)

/-- `Utexture.inject_dds`: validate pixel-format support, DXGI format,
texture type and array size (each mismatch raises before any state is
touched, so a raise leaves the texture unmodified), then rebuild the
mip list from the DDS and refresh the derived fields. -/
def inject_dds (t : Utexture) (dds : DDSData) : Except String Utexture :=
  if !t.has_supported_format then
    Except.error "Unsupported pixel format."
  else if dds.header.dxgi_format ≠ t.dxgi_format then
    Except.error "The format does not match."
  else if dds.get_texture_type ≠ t.get_texture_type then
    Except.error "Texture type does not match."
  else if dds.get_array_size ≠ t.get_array_size then
    Except.error "Array size does not match."
  else
    let uexp_size := t.get_max_uexp_size
    let new_depth := dds.header.depth
    let total := dds.mipmap_size_list.length
    let mips := inject_build t.byte_per_pixel dds.slice_bin_list t.has_ubulk
      (uexp_size.1 * uexp_size.2) new_depth total dds.mipmap_size_list 0 0
    let t := { t with first_mip_to_serialize := 0, mipmaps := mips }
    let new_size := t.get_max_size
    let counts := get_mipmap_num mips
    let t := { t with
      imported_width := new_size.1
      imported_height := new_size.2
      has_ubulk := 0 < counts.2.1
      has_uptnl := 0 < counts.2.2 }
    Except.ok (if t.version.isFF7R then { t with has_opt_data := t.has_ubulk } else t)

/-! ### Offset fix-up (src/unreal/utexture.py, Utexture.rewrite_offset_data)

The uexp stream is a byte list; `LegacyDataResource.rewrite_offset`
(src/unreal/data_resource.py) seeks to the stored `offset_to_offset`
and overwrites exactly the 8-byte offset field, then restores the
cursor. -/

/-- `int64` little-endian image of an in-range value
(`to_bytes(8, "little", signed=True)`). -/
def int64_to_bytes_le (v : Int) : List Nat :=
  natToBytesLE ((v % ((2 : Int) ^ 64)).toNat) 8

/-- Seek to `pos` and overwrite with `bytes` (a seek past the end of a
`BytesIO` zero-fills the gap). -/
def writeBytesAt (s : List Nat) (pos : Nat) (bytes : List Nat) : List Nat :=
  s.take pos ++ List.replicate (pos - s.length) 0 ++ bytes ++ s.drop (pos + bytes.length)

/-- The per-mip loop of `rewrite_offset_data`: for every ubulk/uptnl
mip flagged `has_wrong_offset`, patch its 8-byte offset field in the
stream with `base + offset` and record the new offset in the mip. -/
def rewrite_pass (base : Int) (s : List Nat) : List Umip → List Nat × List Umip
  | [] => (s, [])
  | m :: rest =>
      if (m.has_ubulk_bulk || m.has_uptnl_bulk) && m.has_wrong_offset then
        let newOffset := base + m.offset
        let s1 := writeBytesAt s m.offset_to_offset (int64_to_bytes_le newOffset)
        let r := rewrite_pass base s1 rest
        (r.1, { m with offset := newOffset } :: r.2)
      else
        let r := rewrite_pass base s rest
        (r.1, m :: r.2)

/-- `Utexture.rewrite_offset_data`: a no-op for versions up to 4.15;
otherwise rewrite each flagged ubulk/uptnl mip's offset field to
`-(uasset_size + uexp_size) + offset`. -/
def rewrite_offset_data (t : Utexture) (uexpStream : List Nat)
    (uasset_size uexp_size : Nat) : List Nat × Utexture :=
  if t.version.vle 41500 then (uexpStream, t)
  else
    let base : Int := -(uasset_size : Int) - (uexp_size : Int)
    let r := rewrite_pass base uexpStream t.mipmaps
    (r.1, { t with mipmaps := r.2 })

/-! ### Package codec (src/unreal/uasset.py with src/io_util.py)

The load/save pipeline for one package: the `.uasset` header, name
table, import and export tables, and per-export uexp payloads. The
texture object codec is outside this fragment: a package whose exports
include a texture class is rejected by the embedded loader, so every
statement below concerns packages of pass-through (`Uunknown`)
exports. Reads mirror `io_util`: integer reads return whatever bytes
remain (short reads at end of stream do not raise), array reads demand
their exact byte count, and `check` failures raise. Integer writes are
`to_bytes` images for in-range values. -/

def UASSET_TAG : List Nat := [0xC1, 0x83, 0x2A, 0x9E]
def UASSET_TAG_SWAPPED : List Nat := [0x9E, 0x2A, 0x83, 0xC1]

/-- `io_util.read_uint32` (short reads yield the value of the bytes
that were available). -/
def rdU32 (B : List Nat) (pos : Nat) : Nat × Nat :=
  let raw := streamRead B pos 4
  (to_uint raw, pos + raw.length)

/-- `io_util.read_uint64`. -/
def rdU64 (B : List Nat) (pos : Nat) : Nat × Nat :=
  let raw := streamRead B pos 8
  (to_uint raw, pos + raw.length)

/-- `io_util.read_int32`. -/
def rdI32 (B : List Nat) (pos : Nat) : Int × Nat :=
  let raw := streamRead B pos 4
  (int_from_bytes_signed raw, pos + raw.length)

/-- `io_util.read_int64`. -/
def rdI64 (B : List Nat) (pos : Nat) : Int × Nat :=
  let raw := streamRead B pos 8
  (int_from_bytes_signed raw, pos + raw.length)

/-- `f.read(n)`. -/
def rdBytes (B : List Nat) (pos n : Nat) : List Nat × Nat :=
  let raw := streamRead B pos n
  (raw, pos + raw.length)

/-- `io_util.read_const_uint32`. -/
def rdConstU32 (B : List Nat) (pos n : Nat) : Except String Nat :=
  let r := rdU32 B pos
  if r.1 = n then Except.ok r.2 else Except.error "Unexpected Value!"

/-- `io_util.read_zero`. -/
def rdZero (B : List Nat) (pos : Nat) : Except String Nat :=
  rdConstU32 B pos 0

/-- `io_util.read_uint32_array` with an explicit length
(`struct.unpack` demands the exact byte count). -/
def rdU32Array (B : List Nat) (pos len : Nat) : Except String (List Nat × Nat) :=
  let raw := streamRead B pos (4 * len)
  if raw.length = 4 * len then
    Except.ok ((List.range len).map (fun k => to_uint ((raw.drop (4 * k)).take 4)),
      pos + raw.length)
  else Except.error "struct.error: unpack requires a buffer"

/-- `io_util.read_zero_array`. -/
def rdZeroArray (B : List Nat) (pos len : Nat) : Except String Nat := do
  let (vals, pos') ← rdU32Array B pos len
  if vals = List.replicate len 0 then Except.ok pos'
  else Except.error "Not NULL!"

/-- `io_util.read_int32_array` with an explicit length; a negative
length makes Python read the rest of the stream and fail to unpack it
unless it is empty. -/
def rdI32Array (B : List Nat) (pos : Nat) (len : Int) : Except String (List Int × Nat) :=
  if len < 0 then
    if (B.drop pos).isEmpty then Except.ok ([], B.length)
    else Except.error "struct.error: unpack requires a buffer"
  else
    let n := len.toNat
    let raw := streamRead B pos (4 * n)
    if raw.length = 4 * n then
      Except.ok ((List.range n).map
        (fun k => int_from_bytes_signed ((raw.drop (4 * k)).take 4)), pos + raw.length)
    else Except.error "struct.error: unpack requires a buffer"

/-- `io_util.write_uint32` (`to_bytes` image; applied to in-range
values only — every written field is either parsed from four bytes or
an offset bounded by the output size). -/
def wrU32 (n : Nat) : List Nat := natToBytesLE n 4

/-- `io_util.write_uint64`. -/
def wrU64 (n : Nat) : List Nat := natToBytesLE n 8

/-- `io_util.write_int32` for in-range values. -/
def wrI32 (v : Int) : List Nat := natToBytesLE ((v % ((2 : Nat) ^ 32 : Nat)).toNat) 4

/-- `io_util.write_int64` for in-range values. -/
def wrI64 (v : Int) : List Nat := natToBytesLE ((v % ((2 : Nat) ^ 64 : Nat)).toNat) 8

/-- `io_util.write_str`; `None` raises a `TypeError` and an oversized
length raises `OverflowError`, both modelled as errors. -/
def wrStr : Option (List Char) → Except String (List Nat)
  | none => Except.error "TypeError: object of type NoneType has no len()"
  | some s => string_write s

/-- `FPackageFileSummary` (class UassetFileSummary). Fields that exist
only for some versions hold their default values otherwise. -/
structure UassetSummary where
  file_version : Nat
  version_info : List Nat
  uasset_size : Nat
  package_name : Option (List Char)
  pkg_flags : Nat
  name_count : Nat
  name_offset : Nat
  export_count : Nat
  export_offset : Nat
  import_count : Nat
  import_offset : Nat
  depends_offset : Nat
  guid : List Nat
  generation_count : Nat
  generation_data : List Nat
  package_source : Nat
  asset_registry_data_offset : Nat
  bulk_offset : Nat
  preload_dependency_count : Int
  preload_dependency_offset : Nat
  referenced_names_count : Nat
  payload_toc_offset : Int
deriving DecidableEq, Repr

/-- `UassetFileSummary.__init__`: parse the package header, with every
tag/null/range check of the source. Returns the summary and the
position just past it. -/
def uasset_summary_read (B : List Nat) (v : VersionInfo) :
    Except String (UassetSummary × Nat) := do
  let (tag, pos) := rdBytes B 0 4
  if tag = UASSET_TAG_SWAPPED then
    throw "Big endian files are unsupported."
  else if tag ≠ UASSET_TAG then
    throw "Not uasset file. (Invalid tag detected.)"
  else
  let (fvRaw, pos) := rdI32 B pos
  let fvI : Int := -fvRaw - 1
  if fvI < 5 then throw "An old file version detected. This is unsupported."
  else if 7 < fvI then throw "Unsupported file version detected."
  else
  let file_version := fvI.toNat
  if file_version ≠ 6 - (if v.vle 41300 then 1 else 0) + (if v.vge 50000 then 1 else 0) then
    throw "Parse failed. Make sure you specified UE4 version correctly."
  else
  let (version_info, pos) := rdBytes B pos (16 + (if 7 ≤ file_version then 4 else 0))
  let (uasset_size, pos) := rdU32 B pos
  let pn ← string_read B pos
  let (package_name, pos) := pn
  let (pkg_flags, pos) := rdU32 B pos
  if ¬(pkg_flags &&& 0x80000000 ≠ 0) then
    throw "Unsupported file format detected. (PKG_FilterEditorOnlyitorOnly is false.)"
  else
  let (name_count, pos) := rdU32 B pos
  let (name_offset, pos) := rdU32 B pos
  let pos ←
    if v.vge 50100 then do
      let pos ← rdZero B pos
      pure (pos + 4)
    else pure pos
  let pos ← rdZero B pos
  let pos ← rdZero B pos
  let (export_count, pos) := rdU32 B pos
  let (export_offset, pos) := rdU32 B pos
  let (import_count, pos) := rdU32 B pos
  let (import_offset, pos) := rdU32 B pos
  let (depends_offset, pos) := rdU32 B pos
  let pos ←
    if v.vle 41400 then do
      let pos ← rdZero B pos
      pure (pos + 4)
    else do
      let pos ← rdZero B pos
      let pos ← rdZero B pos
      rdZero B pos
  let pos ← rdZero B pos
  let (guid, pos) := rdBytes B pos 16
  let (generation_count, pos) := rdU32 B pos
  if generation_count = 0 ∨ 10 ≤ generation_count then
    throw "Unexpected value. (generation_count)"
  else
  let gd ← rdU32Array B pos (generation_count * 2)
  let (generation_data, pos) := gd
  let pos ← rdZeroArray B pos 9
  let (package_source, pos) := rdU32 B pos
  let pos ← rdZero B pos
  let pos ← if file_version ≤ 5 then rdZero B pos else pure pos
  let (asset_registry_data_offset, pos) := rdU32 B pos
  let (bulk_offset, pos) := rdU32 B pos
  let pos ← rdZeroArray B pos 3
  let base : UassetSummary :=
    { file_version := file_version, version_info := version_info,
      uasset_size := uasset_size, package_name := package_name,
      pkg_flags := pkg_flags, name_count := name_count, name_offset := name_offset,
      export_count := export_count, export_offset := export_offset,
      import_count := import_count, import_offset := import_offset,
      depends_offset := depends_offset, guid := guid,
      generation_count := generation_count, generation_data := generation_data,
      package_source := package_source,
      asset_registry_data_offset := asset_registry_data_offset,
      bulk_offset := bulk_offset, preload_dependency_count := 0,
      preload_dependency_offset := 0, referenced_names_count := 0,
      payload_toc_offset := 0 }
  if file_version ≤ 5 then
    return (base, pos)
  else
  let (preload_dependency_count, pos) := rdI32 B pos
  let (preload_dependency_offset, pos) := rdU32 B pos
  let base := { base with
    preload_dependency_count := preload_dependency_count
    preload_dependency_offset := preload_dependency_offset }
  if file_version ≤ 6 then
    return (base, pos)
  else
  let (referenced_names_count, pos) := rdU32 B pos
  let (payload_toc_offset, pos) := rdI64 B pos
  return ({ base with
    referenced_names_count := referenced_names_count
    payload_toc_offset := payload_toc_offset }, pos)

/-- `UassetFileSummary.write`: the byte image of the header. -/
def uasset_summary_write (h : UassetSummary) (v : VersionInfo) :
    Except String (List Nat) := do
  let pn ← wrStr h.package_name
  return UASSET_TAG ++ wrI32 (-(h.file_version : Int) - 1) ++ h.version_info ++
    wrU32 h.uasset_size ++ pn ++ wrU32 h.pkg_flags ++
    wrU32 h.name_count ++ wrU32 h.name_offset ++
    (if v.vge 50100 then wrU32 0 ++ wrU32 h.import_offset else []) ++
    wrU32 0 ++ wrU32 0 ++
    wrU32 h.export_count ++ wrU32 h.export_offset ++
    wrU32 h.import_count ++ wrU32 h.import_offset ++
    wrU32 h.depends_offset ++
    (if v.vle 41400 then wrU32 0 ++ wrU32 h.asset_registry_data_offset
      else wrU32 0 ++ wrU32 0 ++ wrU32 0) ++
    wrU32 0 ++ h.guid ++
    wrU32 h.generation_count ++ (h.generation_data.map wrU32).foldl (fun a b => a ++ b) [] ++
    (List.replicate 9 (wrU32 0)).foldl (fun a b => a ++ b) [] ++
    wrU32 h.package_source ++ wrU32 0 ++
    (if h.file_version ≤ 5 then wrU32 0 else []) ++
    wrU32 h.asset_registry_data_offset ++ wrU32 h.bulk_offset ++
    (List.replicate 3 (wrU32 0)).foldl (fun a b => a ++ b) [] ++
    (if h.file_version ≤ 5 then []
      else wrI32 h.preload_dependency_count ++ wrU32 h.preload_dependency_offset ++
        (if h.file_version ≤ 6 then []
          else wrU32 h.referenced_names_count ++ wrI64 h.payload_toc_offset))

/-- One name-table entry: the string and (for versions above 4.11) its
raw 4-byte hash. -/
def uasset_read_name_entry (B : List Nat) (v : VersionInfo) (pos : Nat) :
    Except String ((Option (List Char) × Option (List Nat)) × Nat) := do
  let n ← string_read B pos
  let (name, pos) := n
  if v.vle 41100 then
    return ((name, none), pos)
  else
    let (hash, pos) := rdBytes B pos 4
    return ((name, some hash), pos)

/-- The name map: `name_count` entries. -/
def uasset_read_names (B : List Nat) (v : VersionInfo) :
    Nat → Nat → Except String (List (Option (List Char) × Option (List Nat)) × Nat)
  | 0, pos => Except.ok ([], pos)
  | n + 1, pos => do
      let (entry, pos) ← uasset_read_name_entry B v pos
      let (rest, pos) ← uasset_read_names B v n pos
      return (entry :: rest, pos)

/-- `FObjectImport` (class UassetImport), with the names resolved by
`name_import`. -/
structure UAImport where
  class_package_name_id : Nat
  class_package_name_number : Nat
  class_name_id : Nat
  class_name_number : Nat
  class_package_import_id : Int
  name_id : Nat
  package_name_id : Nat
  optional : Nat
  name : Option (List Char)
  class_name : Option (List Char)
  class_package_name : Option (List Char)
  package_name : Option (List Char)
deriving DecidableEq, Repr

/-- Signed 32-bit field of a struct buffer. -/
def i32At (buf : List Nat) (i : Nat) : Int :=
  int_from_bytes_signed ((buf.drop i).take 4)

/-- `UassetImport.read`: a 28-byte ctypes struct (`readinto` keeps the
zero-initialised bytes where the stream is short) plus
`bImportOptional` from 5.0 on. -/
def uasset_read_import (B : List Nat) (v : VersionInfo) (pos : Nat) :
    (UAImport × Nat) :=
  let raw := streamRead B pos 28
  let buf := raw ++ List.replicate (28 - raw.length) 0
  let pos := pos + raw.length
  let imp : UAImport :=
    { class_package_name_id := u32At buf 0
      class_package_name_number := u32At buf 4
      class_name_id := u32At buf 8
      class_name_number := u32At buf 12
      class_package_import_id := i32At buf 16
      name_id := u32At buf 20
      package_name_id := u32At buf 24
      optional := 0
      name := none, class_name := none, class_package_name := none,
      package_name := none }
  if v.vge 50000 then
    let (o, pos) := rdU32 B pos
    ({ imp with optional := o }, pos)
  else (imp, pos)

def uasset_read_imports (B : List Nat) (v : VersionInfo) :
    Nat → Nat → List UAImport × Nat
  | 0, pos => ([], pos)
  | n + 1, pos =>
      let (imp, pos) := uasset_read_import B v pos
      let (rest, pos) := uasset_read_imports B v n pos
      (imp :: rest, pos)

/-- `name_list[i]` for a non-negative index: out of range is an
`IndexError`; the stored value may itself be Python `None`. -/
def nameAt (names : List (Option (List Char))) (i : Nat) :
    Except String (Option (List Char)) :=
  if h : i < names.length then Except.ok (names.get ⟨i, h⟩)
  else Except.error "IndexError: list index out of range"

/-- Python list indexing with negative-index wrap-around. -/
def pyListGet {α : Type _} (l : List α) (i : Int) : Except String α :=
  if 0 ≤ i then
    if h : i.toNat < l.length then Except.ok (l.get ⟨i.toNat, h⟩)
    else Except.error "IndexError: list index out of range"
  else
    let j : Int := l.length + i
    if 0 ≤ j then
      if h : j.toNat < l.length then Except.ok (l.get ⟨j.toNat, h⟩)
      else Except.error "IndexError: list index out of range"
    else Except.error "IndexError: list index out of range"

/-- `UassetImport.name_import`. -/
def uasset_name_import (names : List (Option (List Char))) (imp : UAImport) :
    Except String UAImport := do
  let name ← nameAt names imp.name_id
  let class_name ← nameAt names imp.class_name_id
  let class_package_name ← nameAt names imp.class_package_name_id
  let package_name ← nameAt names imp.package_name_id
  return { imp with
    name := name, class_name := class_name,
    class_package_name := class_package_name, package_name := package_name }

/-- `FObjectExport` (class UassetExport) with resolved names and the
pass-through (`Uunknown`) payload. -/
structure UAExport where
  class_import_id : Int
  super_import_id : Int
  outer_index : Nat
  name_id : Nat
  name_number : Nat
  object_flags : Nat
  size : Nat
  offset : Nat
  remainings : List Nat
  name : Option (List Char)
  class_name : Option (List Char)
  super_name : Option (List Char)
  object_bin : List Nat
  object_uexp_size : Nat
deriving DecidableEq, Repr

/-- Byte count of the trailing export fields
(`UassetExport.__init__`). -/
def uasset_export_remainings_len (v : VersionInfo) : Nat :=
  64 - (if v.vle 41000 then 4 else 0) - (if v.vle 41500 then 4 else 0) -
    (if v.vle 41300 then 20 else 0) + (if v.eqStr "5.0" then 4 else 0) -
    (if v.vge 50100 then 8 else 0)

/-- `UassetExport.__init__`. -/
def uasset_read_export (B : List Nat) (v : VersionInfo) (pos : Nat) :
    Except String (UAExport × Nat) := do
  let (class_import_id, pos) := rdI32 B pos
  let pos ← if v.vge 41400 then rdZero B pos else pure pos
  let (super_import_id, pos) := rdI32 B pos
  let (outer_index, pos) := rdU32 B pos
  let (name_id, pos) := rdU32 B pos
  let (name_number, pos) := rdU32 B pos
  let (object_flags, pos) := rdU32 B pos
  let (size, pos) := if v.vle 41500 then rdU32 B pos else rdU64 B pos
  let (offset, pos) := rdU32 B pos
  let (remainings, pos) := rdBytes B pos (uasset_export_remainings_len v)
  return ({ class_import_id := class_import_id
            super_import_id := super_import_id
            outer_index := outer_index
            name_id := name_id
            name_number := name_number
            object_flags := object_flags
            size := size
            offset := offset
            remainings := remainings
            name := none
            class_name := none
            super_name := none
            object_bin := []
            object_uexp_size := 0 }, pos)

def uasset_read_exports (B : List Nat) (v : VersionInfo) :
    Nat → Nat → Except String (List UAExport × Nat)
  | 0, pos => Except.ok ([], pos)
  | n + 1, pos => do
      let (e, pos) ← uasset_read_export B v pos
      let (rest, pos) ← uasset_read_exports B v n pos
      return (e :: rest, pos)

/-- `UassetExport.name_export`: resolve the object name and the class
and super names through the import table (Python's negative indexing
included). -/
def uasset_name_export (imports : List UAImport)
    (names : List (Option (List Char))) (e : UAExport) : Except String UAExport := do
  let name ← nameAt names e.name_id
  let ci ← pyListGet imports (-e.class_import_id - 1)
  let si ← pyListGet imports (-e.super_import_id - 1)
  return { e with name := name, class_name := ci.name, super_name := si.name }

def TEXTURE_CLASSES : List (List Char) :=
  ["Texture2D".toList, "TextureCube".toList, "LightMapTexture2D".toList]

/-- `UassetExport.is_texture`. -/
def UAExport.is_texture (e : UAExport) : Bool :=
  match e.class_name with
  | some s => TEXTURE_CLASSES.contains s
  | none => false

/-- `Uasset.read_export_objects` over the uexp stream: each export's
payload is read sequentially (`Uunknown`); a texture export is outside
this fragment and rejected. Returns the exports with payloads and the
stream position. -/
def uasset_read_objects (UX : List Nat) :
    List UAExport → Nat → Except String (List UAExport × Nat)
  | [], upos => Except.ok ([], upos)
  | e :: rest, upos => do
      if e.is_texture then
        throw "texture exports are not modelled in this fragment"
      else
        let (bin, upos) := rdBytes UX upos e.size
        let e := { e with object_bin := bin, object_uexp_size := e.size }
        let (rest, upos) ← uasset_read_objects UX rest upos
        return (e :: rest, upos)

/-- The in-memory package (class Uasset). -/
structure UassetState where
  version : VersionInfo
  header : UassetSummary
  name_list : List (Option (List Char))
  hash_list : List (Option (List Nat))
  imports : List UAImport
  exports : List UAExport
  preload_dependency_ids : List Int
  uexp_size : Nat
  uexp_bin : Option (List Nat)
  ubulk_bin : Option (List Nat)
deriving DecidableEq, Repr

/-- `Uasset.has_uexp`. -/
def uasset_has_uexp (v : VersionInfo) : Bool := v.vge 41600

/-- `Uasset.__init__` (load): header, name map, imports, exports,
depends/registry/preload blocks with their offset checks, then the
per-export uexp payloads (from the separate `.uexp` stream for 4.16+,
from the tail of the `.uasset` itself before that). -/
def uasset_load (v : VersionInfo) (A UX : List Nat) : Except String UassetState := do
  let (header, pos) ← uasset_summary_read A v
  let (entries, pos) ← uasset_read_names A v header.name_count pos
  let names := entries.map Prod.fst
  let hashes := entries.map Prod.snd
  let (imports0, pos) := uasset_read_imports A v header.import_count pos
  let imports ← imports0.mapM (uasset_name_import names)
  let (exports0, pos) ← uasset_read_exports A v header.export_count pos
  let exports ← exports0.mapM (uasset_name_export imports names)
  let pos ← rdZeroArray A pos header.export_count
  if header.asset_registry_data_offset ≠ pos then
    throw "Parse failed. Make sure you specified UE4 version correctly."
  else
  let pos ← rdZero A pos
  let hasUexp := uasset_has_uexp v
  let (preload_ids, pos) ←
    if hasUexp then do
      if header.preload_dependency_offset ≠ pos then
        throw "Parse failed. Make sure you specified UE4 version correctly."
      else
        rdI32Array A pos header.preload_dependency_count
    else pure ([], pos)
  if pos ≠ header.uasset_size then
    throw "Parse failed. Make sure you specified UE4 version correctly."
  else
  if hasUexp then do
    let (exports, upos) ← uasset_read_objects UX exports 0
    if streamRead UX upos 4 ≠ UASSET_TAG then
      throw "Parse failed. Make sure you specified UE4 version correctly."
    else
      return { version := v
               header := header
               name_list := names
               hash_list := hashes
               imports := imports
               exports := exports
               preload_dependency_ids := preload_ids
               uexp_size := upos
               uexp_bin := none
               ubulk_bin := none }
  else do
    let us : Int := (header.bulk_offset : Int) - header.uasset_size
    if us < -1 then
      throw "ValueError: read length must be non-negative or -1"
    else
    let (uexp_bin, pos) :=
      if us = -1 then rdBytes A pos (A.length - pos) else rdBytes A pos us.toNat
    let rest : Int := (A.length : Int) - pos - 4
    if rest < -1 then
      throw "ValueError: read length must be non-negative or -1"
    else
    let (ubulk_bin, pos) :=
      if rest = -1 then rdBytes A pos (A.length - pos) else rdBytes A pos rest.toNat
    if (A.drop pos) ≠ UASSET_TAG then
      throw "Parse failed. Make sure you specified UE4 version correctly."
    else
    let (exports, upos) ← uasset_read_objects uexp_bin exports 0
    return { version := v
             header := header
             name_list := names
             hash_list := hashes
             imports := imports
             exports := exports
             preload_dependency_ids := preload_ids
             uexp_size := upos
             uexp_bin := some uexp_bin
             ubulk_bin := some ubulk_bin }

/-- `UassetImport.write`: the 28-byte ctypes struct plus the optional
flag from 5.0 on. -/
def uasset_write_import (v : VersionInfo) (imp : UAImport) : List Nat :=
  wrU32 imp.class_package_name_id ++ wrU32 imp.class_package_name_number ++
    wrU32 imp.class_name_id ++ wrU32 imp.class_name_number ++
    wrI32 imp.class_package_import_id ++ wrU32 imp.name_id ++
    wrU32 imp.package_name_id ++ (if v.vge 50000 then wrU32 imp.optional else [])

/-- `UassetExport.write`. -/
def uasset_write_export (v : VersionInfo) (e : UAExport) : List Nat :=
  wrI32 e.class_import_id ++ (if v.vgt 41300 then wrU32 0 else []) ++
    wrI32 e.super_import_id ++ wrU32 e.outer_index ++ wrU32 e.name_id ++
    wrU32 e.name_number ++ wrU32 e.object_flags ++
    (if v.vle 41500 then wrU32 e.size else wrU64 e.size) ++
    wrU32 e.offset ++ e.remainings

/-- The name-map block: `write_str` per name and, from 4.12 on, the
raw hash bytes (`f.write(None)` is a `TypeError`). -/
def uasset_write_names (v : VersionInfo) :
    List (Option (List Char)) → List (Option (List Nat)) → Except String (List Nat)
  | [], _ => Except.ok []
  | _, [] => Except.ok []
  | name :: names, hash :: hashes => do
      let nb ← wrStr name
      let hb ←
        if v.vge 41200 then
          match hash with
          | none => throw "TypeError: a bytes-like object is required, not NoneType"
          | some h => pure h
        else pure []
      let rest ← uasset_write_names v names hashes
      return nb ++ hb ++ rest

/-- `Uasset.save` (composed with `write_export_objects`): returns the
new `.uasset` bytes and, for versions with a separate `.uexp` file, its
bytes. Offsets are recomputed from the write positions; the header is
spliced in at offset 0 and the exports are rewritten in place with
their final offsets. -/
def uasset_save (st : UassetState) : Except String (List Nat × Option (List Nat)) := do
  let hasUexp := uasset_has_uexp st.version
  let sizes := st.exports.map (fun e => e.object_bin.length)
  let uexp_size := sizes.sum
  let ends := (List.range st.exports.length).map (fun i => ((sizes.take (i + 1)).sum))
  let exports1 := (st.exports.zip ends).map
    (fun p => { p.1 with size := p.1.object_bin.length, offset := p.2 })
  let uexp_payload := (st.exports.map (fun e => e.object_bin)).foldl (fun a b => a ++ b) []
  let namesB ← uasset_write_names st.version st.name_list st.hash_list
  let import_offset := st.header.name_offset + namesB.length
  let importsB := (st.imports.map (uasset_write_import st.version)).foldl
    (fun a b => a ++ b) []
  let export_offset := import_offset + importsB.length
  let exportsB1 := (exports1.map (uasset_write_export st.version)).foldl
    (fun a b => a ++ b) []
  let afterExports := export_offset + exportsB1.length
  let depends_offset :=
    if st.version.neList ["4.15", "4.14"] then afterExports else st.header.depends_offset
  let asset_registry_data_offset := afterExports + 4 * st.header.export_count
  let preload_dependency_offset := asset_registry_data_offset + 4
  let preloadB :=
    if st.version.vge 41600 then
      (st.preload_dependency_ids.map wrI32).foldl (fun a b => a ++ b) []
    else []
  let uasset_size := preload_dependency_offset + preloadB.length
  let header : UassetSummary := { st.header with
    import_offset := import_offset
    export_offset := export_offset
    depends_offset := depends_offset
    asset_registry_data_offset := asset_registry_data_offset
    preload_dependency_offset := preload_dependency_offset
    uasset_size := uasset_size
    bulk_offset := uexp_size + uasset_size
    name_count := st.name_list.length }
  let headerB ← uasset_summary_write header st.version
  let starts := (List.range exports1.length).map
    (fun i => uasset_size + (sizes.take i).sum)
  let exports2 := (exports1.zip starts).map (fun p => { p.1 with offset := p.2 })
  let exportsB2 := (exports2.map (uasset_write_export st.version)).foldl
    (fun a b => a ++ b) []
  let base := List.replicate st.header.name_offset 0 ++ namesB ++ importsB ++
    exportsB1 ++ (List.replicate st.header.export_count (wrU32 0)).foldl
      (fun a b => a ++ b) [] ++ wrU32 0 ++ preloadB
  let withHeader := writeBytesAt base 0 headerB
  let withExports := writeBytesAt withHeader export_offset exportsB2
  if hasUexp then
    return (withExports, some (uexp_payload ++ UASSET_TAG))
  else
    match st.ubulk_bin with
    | none => throw "TypeError: a bytes-like object is required, not NoneType"
    | some bb =>
        return (writeBytesAt withExports uasset_size
          (uexp_payload ++ bb ++ UASSET_TAG), none)

/-! ### Concrete sample data for the claims -/

def exceptIsError {ε α : Type _} : Except ε α → Bool
  | Except.error _ => true
  | Except.ok _ => false

def defaultUtexture : Utexture :=
  { version := ⟨"4.20", 42000, none⟩, pixel_format := "", dxgi_format := 0, byte_per_pixel := 0,
    is_cube := false, is_3d := false, is_array := false, num_slices := 1,
    has_ubulk := false, has_uptnl := false, has_opt_data := false,
    first_mip_to_serialize := 0, imported_width := 0, imported_height := 0, mipmaps := [] }

/-- A 2D BC1 texture whose largest uexp-resident mip is 4096 x 4096,
with one ubulk mip above it (claim C2's counterexample input). -/
def c2CexTex : Utexture :=
  { defaultUtexture with
    version := ⟨"4.20", 42000, none⟩
    pixel_format := "PF_DXT1"
    dxgi_format := 71
    byte_per_pixel := 4
    has_ubulk := true
    imported_width := 8192, imported_height := 8192
    mipmaps :=
      [{ defaultUmip with
          width := 8192
          height := 8192
          depth := 1
          bulk_type := BulkType.UBULK },
       { defaultUmip with
          width := 4096
          height := 4096
          depth := 1
          bulk_type := BulkType.UEXP }] }

/-- A 2D BC1 DDS with mips 2048 x 2048 and 1024 x 1024 (claim C2's
counterexample input). -/
def c2CexDds : DDSData :=
  { header := { (ddsHeaderOfBuf defaultHeaderBytes) with
      width := 2048, height := 2048, depth := 1, mipmap_num := 2,
      dxgi_format := 71, byte_per_pixel := 4,
      dx10_header := ⟨71, 3, 0, 1, 0⟩ }
    slice_bin_list := [[]]
    mipmap_size_list := [(2048, 2048), (1024, 1024)] }

/-- A 2D BC1 texture whose largest uexp-resident mip is 1024 x 512
(claim C2's witness input). -/
def c2Tex : Utexture :=
  { defaultUtexture with
    version := ⟨"4.20", 42000, none⟩
    pixel_format := "PF_DXT1"
    dxgi_format := 71
    byte_per_pixel := 4
    has_ubulk := true
    imported_width := 2048, imported_height := 2048
    mipmaps :=
      [{ defaultUmip with
          width := 2048
          height := 2048
          depth := 1
          bulk_type := BulkType.UBULK },
       { defaultUmip with
          width := 1024
          height := 512
          depth := 1
          bulk_type := BulkType.UEXP }] }

/-- A 2D BC1 DDS with mips 1024 x 1024 and 512 x 512 (claim C2's
witness input). -/
def c2Dds : DDSData :=
  { header := { (ddsHeaderOfBuf defaultHeaderBytes) with
      width := 1024, height := 1024, depth := 1, mipmap_num := 2,
      dxgi_format := 71, byte_per_pixel := 4,
      dx10_header := ⟨71, 3, 0, 1, 0⟩ }
    slice_bin_list := [[]]
    mipmap_size_list := [(1024, 1024), (512, 512)] }

/-- The texture produced by injecting `c2Dds` into `c2Tex`. -/
def c2Injected : Utexture :=
  match inject_dds c2Tex c2Dds with
  | Except.ok t => t
  | Except.error _ => defaultUtexture

/-- A version 4.15 texture with one ubulk mip flagged
`has_wrong_offset` (claim C3's counterexample input). -/
def c3Tex : Utexture :=
  { defaultUtexture with
    version := ⟨"4.15", 41500, none⟩
    has_ubulk := true
    mipmaps :=
      [{ defaultUmip with
          width := 64
          height := 64
          depth := 1
          bulk_type := BulkType.UBULK
          has_wrong_offset := true
          offset := 16
          offset_to_offset := 0 }] }

def c3Stream : List Nat := List.replicate 12 0

/-- A version 4.20 texture with one flagged ubulk mip (claim C3's
witness input). -/
def c3WTex : Utexture :=
  { defaultUtexture with
    version := ⟨"4.20", 42000, none⟩
    has_ubulk := true
    mipmaps :=
      [{ defaultUmip with
          width := 64
          height := 64
          depth := 1
          bulk_type := BulkType.UBULK
          has_wrong_offset := true
          offset := 16
          offset_to_offset := 2 }] }

def c3WStream : List Nat := List.replicate 12 7

/-- A plain 2D BC1 texture (claim C4's witness input). -/
def c4Tex : Utexture :=
  { defaultUtexture with
    version := ⟨"4.27", 42700, none⟩
    pixel_format := "PF_DXT1"
    dxgi_format := 71
    byte_per_pixel := 4
    mipmaps :=
      [{ defaultUmip with
          width := 256
          height := 256
          depth := 1
          bulk_type := BulkType.UEXP }] }

/-- A cube-map BC1 DDS (claim C4's witness input: cube into 2D must
raise). -/
def c4Dds : DDSData :=
  { header := { (ddsHeaderOfBuf defaultHeaderBytes) with
      width := 256, height := 256, depth := 1, mipmap_num := 1,
      caps2 := 0xFE00,
      dxgi_format := 71, byte_per_pixel := 4,
      dx10_header := ⟨71, 3, 4, 1, 0⟩ }
    slice_bin_list := [[], [], [], [], [], []]
    mipmap_size_list := [(256, 256)] }

/-- The UTF-16LE reference constant for the zen name hash of "None"
(bytes C2 2D 35 A6 5B 0F 37 75 read little-endian). -/
def zenNoneHashReference : Nat :=
  fetch64 [0xC2, 0x2D, 0x35, 0xA6, 0x5B, 0x0F, 0x37, 0x75]

/-- A one-character string above the BMP (claim C8's counterexample
input). -/
def c8CexStr : List Char := [Char.ofNat 0x10000]

/-- The bytes `String.write` emits for `c8CexStr`. -/
def c8CexOut : List Nat :=
  match string_write c8CexStr with
  | Except.ok o => o
  | Except.error _ => []

/-- A 148-byte DX10 DDS file image: stored mipmap count 0 and stored
depth 0, format B8G8R8A8, resource dimension 3 (claim C10's witness
input). -/
def c10Bytes : List Nat :=
  DDS_MAGIC ++ [124, 0, 0, 0] ++ List.replicate 20 0 ++ [0, 0, 0, 0] ++
  List.replicate 36 0 ++ List.replicate 8 0 ++
  [32, 0, 0, 0] ++ [4, 0, 0, 0] ++ [68, 88, 49, 48] ++ List.replicate 20 0 ++
  List.replicate 20 0 ++
  [87, 0, 0, 0] ++ [3, 0, 0, 0] ++ [0, 0, 0, 0] ++ [1, 0, 0, 0] ++ [0, 0, 0, 0]

/-- The header parsed from `c10Bytes`. -/
def c10Parsed : DDSHeader :=
  match dds_header_read c10Bytes with
  | Except.ok (h, _) => h
  | Except.error _ => ddsHeaderOfBuf defaultHeaderBytes

/-- The header produced by `DDSHeader.update` on a fresh header for
uncompressed B8G8R8A8 at width 4, height 2 (claim C6's witness). -/
def c6Updated : DDSHeader :=
  match dds_header_update (ddsHeaderOfBuf defaultHeaderBytes) 4 2 1 1 87 false 1 with
  | Except.ok h => h
  | Except.error _ => ddsHeaderOfBuf defaultHeaderBytes

/-- Engine version 4.16 (separate `.uexp` file, no custom fork). -/
def c1V : VersionInfo := ⟨"4.16", 41600, none⟩

/-- A minimal internally consistent 4.16 package header: one name, one
import, one export, no preload dependencies; every derived offset
matches the layout that `Uasset.save` produces. -/
def c1Header : UassetSummary :=
  { file_version := 6
    version_info := List.replicate 16 0
    uasset_size := 346
    package_name := some "None".toList
    pkg_flags := 0x80000000
    name_count := 1
    name_offset := 193
    export_count := 1
    export_offset := 234
    import_count := 1
    import_offset := 206
    depends_offset := 338
    guid := List.replicate 16 0
    generation_count := 1
    generation_data := [0, 0]
    package_source := 0
    asset_registry_data_offset := 342
    bulk_offset := 350
    preload_dependency_count := 0
    preload_dependency_offset := 346
    referenced_names_count := 0
    payload_toc_offset := 0 }

/-- The single import of the canonical package, every name id pointing
at name 0 (`"None"`). -/
def c1Import : UAImport :=
  { class_package_name_id := 0
    class_package_name_number := 0
    class_name_id := 0
    class_name_number := 0
    class_package_import_id := 0
    name_id := 0
    package_name_id := 0
    optional := 0
    name := some "None".toList
    class_name := some "None".toList
    class_package_name := some "None".toList
    package_name := some "None".toList }

/-- The single export: class import -1 (the import above), a 4-byte
non-texture payload stored at the start of the uexp stream. -/
def c1Export : UAExport :=
  { class_import_id := -1
    super_import_id := -1
    outer_index := 0
    name_id := 0
    name_number := 0
    object_flags := 0
    size := 4
    offset := 346
    remainings := List.replicate 64 0
    name := some "None".toList
    class_name := some "None".toList
    super_name := some "None".toList
    object_bin := [1, 2, 3, 4]
    object_uexp_size := 4 }

/-- The canonical in-memory package state. -/
def c1St : UassetState :=
  { version := c1V
    header := c1Header
    name_list := [some "None".toList]
    hash_list := [some [0, 0, 0, 0]]
    imports := [c1Import]
    exports := [c1Export]
    preload_dependency_ids := []
    uexp_size := 4
    uexp_bin := none
    ubulk_bin := none }

/-- The `.uasset` bytes `Uasset.save` produces for the canonical
state. -/
def c1A : List Nat :=
  match uasset_save c1St with
  | Except.ok p => p.1
  | Except.error _ => []

/-- The `.uexp` bytes `Uasset.save` produces for the canonical state:
the export payload followed by the package tag. -/
def c1UX : List Nat :=
  match uasset_save c1St with
  | Except.ok p =>
      match p.2 with
      | some u => u
      | none => []
  | Except.error _ => []

/-- The canonical `.uasset` with the stored `depends_offset` field
(bytes 73..76) overwritten with 999: still loads, but saving recomputes
the field, so the output differs from the input. -/
def c1BadA : List Nat := writeBytesAt c1A 73 (wrU32 999)

/-- The state `Uasset.__init__` yields for `c1BadA`: identical to the
canonical state except for the stored `depends_offset`. -/
def c1BadSt : UassetState :=
  { c1St with header := { c1Header with depends_offset := 999 } }

/-- C5: packing then unpacking the bulk flags recovers the same
`bulk_type` without raising, for the four real bulk types and every
version. -/
theorem bulk_flags_pack_unpack_inverse (s : DataResourceFlagsState) (v : VersionInfo)
    (h : s.bulk_type ≠ BulkType.UNKNOWN) :
    Except.map DataResourceFlagsState.bulk_type
      (unpack_bulk_flags (update_bulk_flags s v) v) = Except.ok s.bulk_type := by
  cases s with
  | mk flags ty wrong b64 =>
    cases hf : v.isFF7R <;> cases h14 : v.vge 41400 <;> cases h16 : v.vge 41600 <;>
      cases h26 : v.vge 42600 <;> cases h23 : v.vle 42300 <;> cases ty <;> cases b64 <;>
      cases wrong <;>
      first
        | exact absurd rfl h
        | (simp only [update_bulk_flags, unpack_bulk_flags, hf, h14, h16, h26, h23]
           decide)

/-- Witness for C5 at a concrete input: UPTNL at version 4.20. -/
theorem bulk_flags_pack_unpack_inverse_witness :
    Except.map DataResourceFlagsState.bulk_type
      (unpack_bulk_flags
        (update_bulk_flags ⟨0, BulkType.UPTNL, false, false⟩ ⟨"4.20", 42000, none⟩) ⟨"4.20", 42000, none⟩) =
      Except.ok BulkType.UPTNL :=
  bulk_flags_pack_unpack_inverse ⟨0, BulkType.UPTNL, false, false⟩ ⟨"4.20", 42000, none⟩ (by decide)

/-- C7 (counterexample): CityHash64 of the UTF-16LE encoding of the
lowercased string "none" does not equal the engine reference constant
0x75370F5BA6352DC2 (bytes C2 2D 35 A6 5B 0F 37 75, little-endian); the
constant is the hash of a different encoding. -/
theorem city_hash_utf16_none_counterexample :
    city_hash_64 (utf16Encode ['n', 'o', 'n', 'e']) ≠ zenNoneHashReference := by
  decide

/-- C7 (amended): CityHash64 of the ASCII encoding of the lowercased
string "none" — the encoding `test_zen_name_hash` uses for ASCII
strings — equals the engine reference constant 0x75370F5BA6352DC2. -/
theorem city_hash_ascii_none_reference :
    city_hash_64 (asciiEncode ['n', 'o', 'n', 'e']) = zenNoneHashReference := by
  decide

/-- C2 (counterexample): injecting a DDS whose first mip is 2048 x 2048
(not the last mip, and at 4194304 pixels well above the 1024 x 1024
threshold) into a texture that has ubulk-resident mips places that mip
in uexp, because the code compares against the pre-injection largest
uexp mip (4096 x 4096 here), not against a fixed 1 MB-pixel
threshold. -/
theorem inject_dds_threshold_counterexample :
    Except.map (fun t => (t.mipmaps.headD defaultUmip).bulk_type)
        (inject_dds c2CexTex c2CexDds) = Except.ok BulkType.UEXP ∧
      c2CexTex.has_ubulk = true ∧
      0 + 1 < c2CexDds.mipmap_size_list.length ∧
      1024 * 1024 ≤ (c2CexDds.mipmap_size_list.headD (0, 0)).1 *
        (c2CexDds.mipmap_size_list.headD (0, 0)).2 ∧
      BulkType.UEXP ≠ BulkType.UBULK := by
  refine ⟨by decide, by decide, by decide, by decide, by decide⟩

/-- C3 (counterexample): at engine version 4.15 (before 4.26 and not
the ff7r fork) `rewrite_offset_data` returns without patching, even
though the texture has a ubulk mip flagged `has_wrong_offset`; the
stream is returned unchanged although the claimed rewrite would alter
it. -/
theorem rewrite_offset_skip_415_counterexample :
    (rewrite_offset_data c3Tex c3Stream 4 4).1 = c3Stream ∧
      c3Tex.version.base_int < 42600 ∧
      c3Tex.version.isFF7R = false ∧
      ((c3Tex.mipmaps.headD defaultUmip).has_ubulk_bulk &&
        (c3Tex.mipmaps.headD defaultUmip).has_wrong_offset) = true ∧
      writeBytesAt c3Stream (c3Tex.mipmaps.headD defaultUmip).offset_to_offset
          (int64_to_bytes_le (-(4 + 4 : Int) +
            (c3Tex.mipmaps.headD defaultUmip).offset)) ≠ c3Stream := by
  refine ⟨by decide, by decide, by decide, by decide, by decide⟩

/-- C6 (counterexample): `DDSHeader.update` for the uncompressed
non-cube format B8G8R8A8 (4 bytes per pixel) with width 4 and height 2
stores pitch-or-linear-size 16 = width * bpp, not
width * height * bpp * (6 if cube else 1) = 32 as the claim states. -/
theorem dds_update_pitch_counterexample :
    Except.map DDSHeader.pitch_or_linear_size
        (dds_header_update (ddsHeaderOfBuf defaultHeaderBytes) 4 2 1 1
          DXGI_B8G8R8A8_UNORM false 1) = Except.ok 16 ∧
      (16 : Nat) ≠ 4 * 2 * 4 * 1 := by
  refine ⟨by decide, by decide⟩

/-- C8 (counterexample): for the one-character string U+10000 (outside
the Basic Multilingual Plane) `String.write` succeeds — the prefix
counts characters, not UTF-16 code units — but `String.read` on the
emitted bytes raises a decode error instead of returning the original
string. -/
theorem string_codec_astral_counterexample :
    string_write c8CexStr =
        Except.ok [254, 255, 255, 255, 0, 216, 0, 220, 0, 0] ∧
      string_read [254, 255, 255, 255, 0, 216, 0, 220, 0, 0] 0 =
        Except.error "UnicodeDecodeError: unexpected end of data" := by
  refine ⟨by decide, by decide⟩

/-- C9 (counterexample): `String.read` on an empty stream returns
`None` (the short read of the length prefix decodes to 0), although the
input has no 32-bit zero prefix at all — so a zero 32-bit prefix is not
the only input producing `None`. -/
theorem string_read_none_empty_counterexample :
    string_read [] 0 = Except.ok (none, 0) ∧ ¬4 ≤ ([] : List Nat).length := by
  refine ⟨by decide, by decide⟩

/-- C4: whenever the incoming DDS disagrees with the texture on DXGI
format, texture type, or array size, `inject_dds` raises; because all
of these checks run before the first assignment to the texture object
(the embedding returns an error and the caller's texture value is
untouched), a raise leaves the texture unmodified. -/
theorem inject_dds_mismatch_raises (t : Utexture) (dds : DDSData)
    (h : dds.header.dxgi_format ≠ t.dxgi_format ∨
      dds.get_texture_type ≠ t.get_texture_type ∨
      dds.get_array_size ≠ t.get_array_size) :
    exceptIsError (inject_dds t dds) = true := by
  by_cases hs : t.has_supported_format
  · by_cases h1 : dds.header.dxgi_format = t.dxgi_format
    · by_cases h2 : dds.get_texture_type = t.get_texture_type
      · by_cases h3 : dds.get_array_size = t.get_array_size
        · rcases h with h | h | h <;> exact absurd (by assumption) h
        · simp [inject_dds, hs, h1, h2, h3, exceptIsError]
      · simp [inject_dds, hs, h1, h2, exceptIsError]
    · simp [inject_dds, hs, h1, exceptIsError]
  · simp [inject_dds, hs, exceptIsError]

/-- Witness for C4: injecting a cube-map DDS into a 2D texture raises. -/
theorem inject_dds_mismatch_raises_witness :
    exceptIsError (inject_dds c4Tex c4Dds) = true :=
  inject_dds_mismatch_raises c4Tex c4Dds (by decide)

/-- C6 (amended): `DDSHeader.update` recomputes pitch-or-linear-size as
`int(width * height * bpp)` for block-compressed formats and
`int(width * bpp)` for uncompressed ones (no factor for cube maps), and
recomputes `caps`/`caps2` solely from the has-mips / is-cube / is-3d
booleans — the previous contents of the header, including any
caller-provided cap bits, do not enter. -/
theorem dds_header_update_recompute (h : DDSHeader)
    (width height depth mipmap_num dxgi : Nat) (is_cube : Bool) (array_size bpp : Nat)
    (hb : dxgiBpp dxgi = Except.ok bpp) (h' : DDSHeader)
    (hok : dds_header_update h width height depth mipmap_num dxgi is_cube array_size =
      Except.ok h') :
    h'.pitch_or_linear_size =
      (if dxgi_is_compressed dxgi then width * height * bpp / 8 else width * bpp / 8) ∧
    h'.caps = DDS_CAPS_get_caps (decide (1 < mipmap_num)) is_cube ∧
    h'.caps2 = DDS_CAPS2_get_caps2 is_cube (decide (1 < depth)) := by
  simp only [dds_header_update, hb, Except.bind, bind, DDSHeader.has_mips,
    DDSHeader.is_3d] at hok
  cases hok
  exact ⟨rfl, rfl, rfl⟩

/-- Witness for C6 (amended): recomputation for uncompressed B8G8R8A8
at width 4, height 2, with stale cap bits in the incoming header. -/
theorem dds_header_update_recompute_witness :
    ((ddsHeaderOfBuf defaultHeaderBytes).pitch_or_linear_size = 0 ∧
      c6Updated.pitch_or_linear_size = (if dxgi_is_compressed 87 then 4 * 2 * 32 / 8 else 4 * 32 / 8) ∧
      c6Updated.caps = DDS_CAPS_get_caps (decide (1 < (1 : Nat))) false ∧
      c6Updated.caps2 = DDS_CAPS2_get_caps2 false (decide (1 < (1 : Nat)))) := by
  refine ⟨by decide, ?_⟩
  exact dds_header_update_recompute (ddsHeaderOfBuf defaultHeaderBytes) 4 2 1 1 87 false 1 32
    (by decide) c6Updated (by decide)

/-- C10: `DDSHeader.read` replaces a stored mipmap count of 0 with 1
and a stored depth of 0 with 1 immediately after filling the header
struct, so every successfully loaded DDS header has `mipmap_num >= 1`
and `depth >= 1`. -/
theorem dds_header_read_normalizes (bs : List Nat) (h : DDSHeader) (n : Nat)
    (hr : dds_header_read bs = Except.ok (h, n)) :
    1 ≤ h.mipmap_num ∧ 1 ≤ h.depth := by
  simp only [dds_header_read, bind, Except.bind, pure, Except.pure] at hr
  repeat' split at hr
  all_goals cases hr
  all_goals refine ⟨?_, ?_⟩ <;> (dsimp only; omega)

set_option maxRecDepth 8192 in
/-- Witness for C10: a DX10 B8G8R8A8 header with stored mipmap count 0
and stored depth 0 loads successfully and reports both as 1. -/
theorem dds_header_read_normalizes_witness :
    dds_header_read c10Bytes = Except.ok (c10Parsed, 148) ∧
      1 ≤ c10Parsed.mipmap_num ∧ 1 ≤ c10Parsed.depth :=
  ⟨by decide, dds_header_read_normalizes c10Bytes c10Parsed 148 (by decide)⟩

theorem inject_build_length (bpp : Nat) (slices : List (List Nat)) (hub : Bool)
    (px d total : Nat) :
    ∀ (sizes : List (Nat × Nat)) (i0 off : Nat),
      (inject_build bpp slices hub px d total sizes i0 off).length = sizes.length := by
  intro sizes
  induction sizes with
  | nil => intro i0 off; rfl
  | cons size rest ih =>
      intro i0 off
      simp only [inject_build, List.length_cons]
      rw [ih]

theorem inject_build_bulk_type (bpp : Nat) (slices : List (List Nat)) (hub : Bool)
    (px d total : Nat) :
    ∀ (sizes : List (Nat × Nat)) (i0 off j : Nat), j < sizes.length →
      ((inject_build bpp slices hub px d total sizes i0 off).getD j defaultUmip).bulk_type =
        (if hub && decide (i0 + j + 1 < total) &&
            decide (px < (sizes.getD j (0, 0)).1 * (sizes.getD j (0, 0)).2)
          then BulkType.UBULK else BulkType.UEXP) := by
  intro sizes
  induction sizes with
  | nil => intro i0 off j hj; exact absurd hj (by simp)
  | cons size rest ih =>
      intro i0 off j hj
      cases j with
      | zero =>
          simp only [inject_build, List.getD, List.getElem?_cons_zero, Option.getD_some,
            umip_update]
          by_cases h1 : hub <;> by_cases h2 : i0 + 0 + 1 < total <;>
            by_cases h3 : px < size.1 * size.2 <;>
            simp [h1, h2, h3, Nat.add_zero, gt_iff_lt]
      | succ j' =>
          have hj' : j' < rest.length := by
            simpa [Nat.succ_lt_succ_iff] using hj
          have hih := ih (i0 + 1) (off + size.1 * size.2 * bpp / 8) j' hj'
          have harith : i0 + 1 + j' + 1 = i0 + (j' + 1) + 1 := by omega
          rw [harith] at hih
          simp only [inject_build, List.getD_cons_succ]
          exact hih

/-- C2 (amended): on a successful injection, mip `i` is ubulk-resident
if and only if the texture had ubulk mips, mip `i` is not the last mip,
and its pixel count strictly exceeds the pixel count of the
pre-injection texture's largest uexp-resident mip (the code compares
against that mip's `width * height`, not against a fixed 1024 x 1024
threshold); every other mip is uexp-resident. -/
theorem inject_dds_mip_placement (t : Utexture) (dds : DDSData) (t' : Utexture)
    (hok : inject_dds t dds = Except.ok t') (i : Nat)
    (hi : i < t'.mipmaps.length) :
    ((t'.mipmaps.getD i defaultUmip).bulk_type = BulkType.UBULK ↔
      (t.has_ubulk = true ∧ i + 1 < dds.mipmap_size_list.length ∧
        t.get_max_uexp_size.1 * t.get_max_uexp_size.2 <
          (dds.mipmap_size_list.getD i (0, 0)).1 *
            (dds.mipmap_size_list.getD i (0, 0)).2)) ∧
    ((t'.mipmaps.getD i defaultUmip).bulk_type = BulkType.UBULK ∨
      (t'.mipmaps.getD i defaultUmip).bulk_type = BulkType.UEXP) := by
  simp only [inject_dds] at hok
  repeat' split at hok
  all_goals cases hok
  all_goals
    simp only [inject_build_length] at hi
    refine ⟨?_, ?_⟩
    all_goals dsimp only
    all_goals rw [inject_build_bulk_type _ _ _ _ _ _ _ _ _ i hi]
    · simp only [Nat.zero_add]
      by_cases h1 : t.has_ubulk <;>
        by_cases h2 : i + 1 < dds.mipmap_size_list.length <;>
        by_cases h3 : t.get_max_uexp_size.1 * t.get_max_uexp_size.2 <
          (dds.mipmap_size_list.getD i (0, 0)).1 * (dds.mipmap_size_list.getD i (0, 0)).2 <;>
        simp [h1, h2, h3]
    · split
      · exact Or.inl rfl
      · exact Or.inr rfl

/-- Witness for C2 (amended): injecting a 1024/512 two-mip DDS into a
texture whose largest uexp mip is 1024 x 512 places mip 0 (whose pixel
count exceeds that threshold) in ubulk. -/
theorem inject_dds_mip_placement_witness :
    ((c2Injected.mipmaps.getD 0 defaultUmip).bulk_type = BulkType.UBULK ↔
      (c2Tex.has_ubulk = true ∧ 0 + 1 < c2Dds.mipmap_size_list.length ∧
        c2Tex.get_max_uexp_size.1 * c2Tex.get_max_uexp_size.2 <
          (c2Dds.mipmap_size_list.getD 0 (0, 0)).1 *
            (c2Dds.mipmap_size_list.getD 0 (0, 0)).2)) ∧
    ((c2Injected.mipmaps.getD 0 defaultUmip).bulk_type = BulkType.UBULK ∨
      (c2Injected.mipmaps.getD 0 defaultUmip).bulk_type = BulkType.UEXP) :=
  inject_dds_mip_placement c2Tex c2Dds c2Injected (by decide) 0 (by decide)

theorem writeBytesAt_length (s bytes : List Nat) (pos : Nat)
    (hb : pos + bytes.length ≤ s.length) :
    (writeBytesAt s pos bytes).length = s.length := by
  have hpos : pos ≤ s.length := by omega
  simp only [writeBytesAt, Nat.sub_eq_zero_of_le hpos, List.replicate_zero,
    List.append_nil, List.length_append, List.length_take, List.length_drop,
    Nat.min_eq_left hpos]
  omega

theorem writeBytesAt_get? (s bytes : List Nat) (pos i : Nat)
    (hb : pos + bytes.length ≤ s.length) :
    (writeBytesAt s pos bytes).get? i =
      if pos ≤ i ∧ i < pos + bytes.length then bytes.get? (i - pos) else s.get? i := by
  have hpos : pos ≤ s.length := by omega
  have htk : (s.take pos).length = pos := by
    simp [List.length_take]; omega
  simp only [writeBytesAt, Nat.sub_eq_zero_of_le hpos, List.replicate_zero,
    List.append_nil]
  rw [List.append_assoc]
  by_cases h1 : i < pos
  · rw [List.get?_append (by omega : i < (s.take pos).length), List.get?_take h1,
      if_neg (by omega)]
  · rw [List.get?_append_right (by omega : (s.take pos).length ≤ i), htk]
    by_cases h2 : i < pos + bytes.length
    · rw [List.get?_append (by omega : i - pos < bytes.length), if_pos ⟨by omega, h2⟩]
    · rw [List.get?_append_right (by omega : bytes.length ≤ i - pos), List.get?_drop,
        if_neg (by omega)]
      congr 1
      omega

theorem writeBytesAt_slice (s bytes : List Nat) (pos : Nat)
    (hb : pos + bytes.length ≤ s.length) :
    ((writeBytesAt s pos bytes).drop pos).take bytes.length = bytes := by
  have hpos : pos ≤ s.length := by omega
  have htk : (s.take pos).length = pos := by
    simp [List.length_take]; omega
  simp only [writeBytesAt, Nat.sub_eq_zero_of_le hpos, List.replicate_zero,
    List.append_nil]
  rw [List.append_assoc, List.drop_left' htk, List.take_left]

theorem slice_eq_of_get?_eq (l1 l2 : List Nat) (a k : Nat) (hlen : l1.length = l2.length)
    (h : ∀ i, a ≤ i → i < a + k → l1.get? i = l2.get? i) :
    (l1.drop a).take k = (l2.drop a).take k := by
  apply List.ext
  intro n
  by_cases hn : n < k
  · rw [List.get?_take hn, List.get?_take hn, List.get?_drop, List.get?_drop]
    exact h (a + n) (by omega) (by omega)
  · rw [List.get?_eq_none.mpr, List.get?_eq_none.mpr]
    · simp only [List.length_take, List.length_drop]
      omega
    · simp only [List.length_take, List.length_drop]
      omega

theorem rewrite_pass_spec (base : Int) (mips : List Umip) :
    ∀ (s : List Nat),
      (∀ m ∈ mips,
        ((m.has_ubulk_bulk || m.has_uptnl_bulk) && m.has_wrong_offset) = true →
          m.offset_to_offset + 8 ≤ s.length) →
      (rewrite_pass base s mips).1.length = s.length ∧
      (∀ i, (∀ m ∈ mips,
          ((m.has_ubulk_bulk || m.has_uptnl_bulk) && m.has_wrong_offset) = true →
            i < m.offset_to_offset ∨ m.offset_to_offset + 8 ≤ i) →
        (rewrite_pass base s mips).1.get? i = s.get? i) ∧
      ((mips.filter
          (fun m => (m.has_ubulk_bulk || m.has_uptnl_bulk) && m.has_wrong_offset)).Pairwise
          (fun m1 m2 => m1.offset_to_offset + 8 ≤ m2.offset_to_offset ∨
            m2.offset_to_offset + 8 ≤ m1.offset_to_offset) →
        ∀ m ∈ mips,
          ((m.has_ubulk_bulk || m.has_uptnl_bulk) && m.has_wrong_offset) = true →
            ((rewrite_pass base s mips).1.drop m.offset_to_offset).take 8 =
              int64_to_bytes_le (base + m.offset)) := by
  induction mips with
  | nil =>
      intro s _
      refine ⟨rfl, fun i _ => rfl, fun _ m hm => absurd hm (by simp)⟩
  | cons m rest ih =>
      intro s hbound
      by_cases hm : ((m.has_ubulk_bulk || m.has_uptnl_bulk) && m.has_wrong_offset) = true
      · have hmb : m.offset_to_offset + 8 ≤ s.length :=
          hbound m (by simp) hm
        have hlen8 : (int64_to_bytes_le (base + m.offset)).length = 8 := by
          simp [int64_to_bytes_le, natToBytesLE]
        set s1 := writeBytesAt s m.offset_to_offset (int64_to_bytes_le (base + m.offset))
          with hs1
        have hs1len : s1.length = s.length := by
          rw [hs1]
          rw [writeBytesAt_length]
          rw [hlen8]
          exact hmb
        have hrest := ih s1 (fun m' hm' hmk => by
          rw [hs1len]
          exact hbound m' (by simp [hm']) hmk)
        have hrw : rewrite_pass base s (m :: rest) =
            ((rewrite_pass base s1 rest).1,
              { m with offset := base + m.offset } :: (rewrite_pass base s1 rest).2) := by
          simp only [rewrite_pass, hm, if_pos, hs1]
        refine ⟨?_, ?_, ?_⟩
        · rw [hrw]
          exact hrest.1.trans hs1len
        · intro i hi
          rw [hrw]
          have h1 : (rewrite_pass base s1 rest).1.get? i = s1.get? i :=
            hrest.2.1 i (fun m' hm' hmk => hi m' (by simp [hm']) hmk)
          rw [h1, hs1]
          rw [writeBytesAt_get?]
          · rw [if_neg]
            rw [hlen8]
            have := hi m (by simp) hm
            omega
          · rw [hlen8]; exact hmb
        · intro hdisj m' hm' hmk
          have hfilter : (m :: rest).filter
              (fun m => (m.has_ubulk_bulk || m.has_uptnl_bulk) && m.has_wrong_offset) =
              m :: rest.filter
                (fun m => (m.has_ubulk_bulk || m.has_uptnl_bulk) && m.has_wrong_offset) := by
            simp [List.filter_cons, hm]
          rw [hfilter] at hdisj
          have hdj := List.pairwise_cons.mp hdisj
          rcases List.mem_cons.mp hm' with hEq | hmem
        -- m' is the head: its region was patched into s1 and later patches are disjoint
          · subst hEq
            rw [hrw]
            have hslice : ((rewrite_pass base s1 rest).1.drop m'.offset_to_offset).take 8 =
                (s1.drop m'.offset_to_offset).take 8 := by
              apply slice_eq_of_get?_eq
              · exact hrest.1
              · intro i hi1 hi2
                refine hrest.2.1 i (fun m2 hm2 hmk2 => ?_)
                have hd := hdj.1 m2 (List.mem_filter.mpr ⟨hm2, hmk2⟩)
                omega
            rw [hslice, hs1]
            have := writeBytesAt_slice s (int64_to_bytes_le (base + m'.offset))
              m'.offset_to_offset (by rw [hlen8]; exact hmb)
            rw [hlen8] at this
            exact this
          · rw [hrw]
            exact hrest.2.2 hdj.2 m' hmem hmk
      · have hrw : rewrite_pass base s (m :: rest) =
            ((rewrite_pass base s rest).1, m :: (rewrite_pass base s rest).2) := by
          simp only [rewrite_pass, if_neg hm]
        have hrest := ih s (fun m' hm' hmk => hbound m' (by simp [hm']) hmk)
        refine ⟨?_, ?_, ?_⟩
        · rw [hrw]; exact hrest.1
        · intro i hi
          rw [hrw]
          exact hrest.2.1 i (fun m' hm' hmk => hi m' (by simp [hm']) hmk)
        · intro hdisj m' hm' hmk
          have hfilter : (m :: rest).filter
              (fun m => (m.has_ubulk_bulk || m.has_uptnl_bulk) && m.has_wrong_offset) =
              rest.filter
                (fun m => (m.has_ubulk_bulk || m.has_uptnl_bulk) && m.has_wrong_offset) := by
            simp [List.filter_cons, hm]
          rw [hfilter] at hdisj
          rcases List.mem_cons.mp hm' with hEq | hmem
          · subst hEq; exact absurd hmk hm
          · rw [hrw]
            exact hrest.2.2 hdisj m' hmem hmk

/-- C3 (amended): for every texture saved under an engine version after
4.15 and before 4.26 (excluding the ff7r fork), writing re-derives the
bulk flags so that each ubulk/uptnl resource is marked
`has_wrong_offset`, and the second pass rewrites each such mip's 8-byte
offset field in place to `-(uasset_size + uexp_size) + offset` while
leaving every byte outside those fields untouched (for versions up to
4.15 the pass is skipped entirely — see the counterexample). -/
theorem rewrite_offset_data_fixup (t : Utexture) (s : List Nat) (ua ue : Nat)
    (hv1 : 41500 < t.version.base_int) (hv2 : t.version.base_int < 42600)
    (hff : t.version.isFF7R = false)
    (hbound : ∀ m ∈ t.mipmaps,
      ((m.has_ubulk_bulk || m.has_uptnl_bulk) && m.has_wrong_offset) = true →
        m.offset_to_offset + 8 ≤ s.length)
    (hdisj : (t.mipmaps.filter
        (fun m => (m.has_ubulk_bulk || m.has_uptnl_bulk) && m.has_wrong_offset)).Pairwise
        (fun m1 m2 => m1.offset_to_offset + 8 ≤ m2.offset_to_offset ∨
          m2.offset_to_offset + 8 ≤ m1.offset_to_offset)) :
    (∀ dr : DataResourceFlagsState,
      dr.bulk_type = BulkType.UBULK ∨ dr.bulk_type = BulkType.UPTNL →
        (update_bulk_flags dr t.version).has_wrong_offset = true) ∧
    (rewrite_offset_data t s ua ue).1.length = s.length ∧
    (∀ i, (∀ m ∈ t.mipmaps,
        ((m.has_ubulk_bulk || m.has_uptnl_bulk) && m.has_wrong_offset) = true →
          i < m.offset_to_offset ∨ m.offset_to_offset + 8 ≤ i) →
      (rewrite_offset_data t s ua ue).1.get? i = s.get? i) ∧
    (∀ m ∈ t.mipmaps,
      ((m.has_ubulk_bulk || m.has_uptnl_bulk) && m.has_wrong_offset) = true →
        ((rewrite_offset_data t s ua ue).1.drop m.offset_to_offset).take 8 =
          int64_to_bytes_le (-((ua : Int) + (ue : Int)) + m.offset)) := by
  have hge : t.version.vge 42600 = false := by
    simp [VersionInfo.vge]; omega
  have hle : t.version.vle 41500 = false := by
    simp [VersionInfo.vle]; omega
  constructor
  · intro dr hdr
    rcases hdr with h | h <;>
    · cases dr with
      | mk flags ty wrong b64 =>
        subst h
        cases b64 <;> simp [update_bulk_flags, hff, hge]
  · have hbase : -((ua : Int) + (ue : Int)) = -(ua : Int) - (ue : Int) := by ring
    have hmain := rewrite_pass_spec (-(ua : Int) - (ue : Int)) t.mipmaps s hbound
    have hrw : rewrite_offset_data t s ua ue =
        ((rewrite_pass (-(ua : Int) - (ue : Int)) s t.mipmaps).1,
          { t with mipmaps := (rewrite_pass (-(ua : Int) - (ue : Int)) s t.mipmaps).2 }) := by
      simp only [rewrite_offset_data, hle, Bool.false_eq_true, if_false]
    refine ⟨?_, ?_, ?_⟩
    · rw [hrw]; exact hmain.1
    · intro i hi
      rw [hrw]
      exact hmain.2.1 i hi
    · intro m hm hmk
      rw [hrw, hbase]
      exact hmain.2.2 hdisj m hm hmk

/-- Witness for C3 (amended): at version 4.20 the flagged ubulk mip's
8-byte field (at stream offset 2) is rewritten to
`-(4 + 4) + 16 = 8`, the rest of the 12-byte stream is untouched, and
the write path marks ubulk resources as `has_wrong_offset`. -/
theorem rewrite_offset_data_fixup_witness :
    (∀ dr : DataResourceFlagsState,
      dr.bulk_type = BulkType.UBULK ∨ dr.bulk_type = BulkType.UPTNL →
        (update_bulk_flags dr c3WTex.version).has_wrong_offset = true) ∧
    (rewrite_offset_data c3WTex c3WStream 4 4).1.length = c3WStream.length ∧
    (∀ i, (∀ m ∈ c3WTex.mipmaps,
        ((m.has_ubulk_bulk || m.has_uptnl_bulk) && m.has_wrong_offset) = true →
          i < m.offset_to_offset ∨ m.offset_to_offset + 8 ≤ i) →
      (rewrite_offset_data c3WTex c3WStream 4 4).1.get? i = c3WStream.get? i) ∧
    (∀ m ∈ c3WTex.mipmaps,
      ((m.has_ubulk_bulk || m.has_uptnl_bulk) && m.has_wrong_offset) = true →
        ((rewrite_offset_data c3WTex c3WStream 4 4).1.drop m.offset_to_offset).take 8 =
          int64_to_bytes_le (-((4 : Int) + (4 : Int)) + m.offset)) :=
  rewrite_offset_data_fixup c3WTex c3WStream 4 4 (by decide) (by decide) (by decide)
    (by decide) (by decide)

/-- C9 (amended): `String.read` returns `None` exactly when the signed
integer decoded from the up-to-four available prefix bytes is zero (a
genuine 32-bit zero prefix, or an empty/truncated all-zero prefix at
end of stream); the non-zero branches return a string or raise, never
`None`. -/
theorem string_read_none_iff (bs : List Nat) (pos p : Nat) :
    string_read bs pos = Except.ok (none, p) ↔
      (int_from_bytes_signed (streamRead bs pos 4) = 0 ∧
        p = pos + (streamRead bs pos 4).length) := by
  constructor
  · intro h
    simp only [string_read, bind, Except.bind] at h
    split at h
    · cases h
      exact ⟨by assumption, rfl⟩
    · repeat' split at h
      all_goals first
        | (cases h)
        | (exact absurd h (by simp))
  · rintro ⟨h0, hp⟩
    simp only [string_read, if_pos h0]
    rw [hp]

/-- Witness for C9 (amended): a genuine zero 32-bit prefix yields
`None` with the cursor just past it. -/
theorem string_read_none_iff_witness :
    string_read [0, 0, 0, 0, 9] 0 = Except.ok (none, 4) :=
  (string_read_none_iff [0, 0, 0, 0, 9] 0 4).mpr ⟨by decide, by decide⟩

theorem char_not_surrogate (c : Char) : c.toNat < 0xD800 ∨ 0xE000 ≤ c.toNat := by
  have h := c.valid
  simp only [UInt32.isValidChar, Nat.isValidChar] at h
  have he : c.toNat = c.val.toNat := rfl
  rcases h with h | h
  · exact Or.inl (by omega)
  · right
    omega

theorem asciiDecode_asciiEncode (s : List Char) (h : ∀ c ∈ s, c.toNat < 128) :
    asciiDecode (asciiEncode s) = Except.ok s := by
  induction s with
  | nil => rfl
  | cons c cs ih =>
      have hc : c.toNat < 128 := h c (by simp)
      simp only [asciiEncode, List.map_cons, asciiDecode, if_pos hc, bind, Except.bind]
      rw [show asciiEncode cs = cs.map Char.toNat from rfl] at ih
      rw [ih (fun c hc => h c (by simp [hc]))]
      simp [Char.ofNat_toNat]

theorem utf16Encode_cons_bmp (c : Char) (cs : List Char) (h : c.toNat < 65536) :
    utf16Encode (c :: cs) = c.toNat % 256 :: c.toNat / 256 :: utf16Encode cs := by
  simp [utf16Encode, utf16Units, h]

theorem bytesToUnits_utf16Encode (s : List Char) (h : ∀ c ∈ s, c.toNat < 65536) :
    bytesToUnits (utf16Encode s) = Except.ok (s.map Char.toNat) := by
  induction s with
  | nil => rfl
  | cons c cs ih =>
      have hc : c.toNat < 65536 := h c (by simp)
      rw [utf16Encode_cons_bmp c cs hc]
      simp only [bytesToUnits, bind, Except.bind]
      rw [ih (fun c hc => h c (by simp [hc]))]
      simp only [List.map_cons]
      congr 2
      omega

theorem utf16DecodeUnits_map_toNat (s : List Char) (h : ∀ c ∈ s, c.toNat < 65536) :
    utf16DecodeUnits (s.map Char.toNat) = Except.ok s := by
  induction s with
  | nil => rfl
  | cons c cs ih =>
      have hc := char_not_surrogate c
      have hcs := ih (fun c hc => h c (by simp [hc]))
      cases cs with
      | nil =>
          simp only [List.map_cons, List.map_nil] at hcs ⊢
          simp only [utf16DecodeUnits, if_pos hc, bind, Except.bind]
          simp [Char.ofNat_toNat]
      | cons c2 cs2 =>
          simp only [List.map_cons] at hcs ⊢
          simp only [utf16DecodeUnits, if_pos hc, bind, Except.bind] at hcs ⊢
          rw [hcs]
          simp [Char.ofNat_toNat]

theorem length_natToBytesLE (u n : Nat) : (natToBytesLE u n).length = n := by
  simp [natToBytesLE]

theorem to_uint_natToBytesLE4 (u : Nat) (h : u < 2 ^ 32) :
    to_uint (natToBytesLE u 4) = u := by
  have : natToBytesLE u 4 =
      [u % 256, u / 256 % 256, u / 256 ^ 2 % 256, u / 256 ^ 3 % 256] := by
    simp [natToBytesLE, List.range_succ]
  rw [this]
  simp only [to_uint, List.reverse_cons, List.reverse_nil, List.nil_append,
    List.foldl_append, List.foldl_cons, List.foldl_nil]
  have h2 : (256 : Nat) ^ 2 = 65536 := by norm_num
  have h3 : (256 : Nat) ^ 3 = 16777216 := by norm_num
  rw [h2, h3]
  omega

theorem int_from_bytes_signed_natToBytesLE4 (v : Int)
    (h1 : -(2 ^ 31) ≤ v) (h2 : v < 2 ^ 31) :
    int_from_bytes_signed (natToBytesLE ((v % ((2 : Nat) ^ 32 : Nat)).toNat) 4) = v := by
  have hmpos : (0 : Int) < ((2 : Nat) ^ 32 : Nat) := by norm_num
  have h0 : 0 ≤ v % ((2 : Nat) ^ 32 : Nat) := Int.emod_nonneg v (by norm_num)
  have hlt : v % ((2 : Nat) ^ 32 : Nat) < ((2 : Nat) ^ 32 : Nat) := Int.emod_lt_of_pos v hmpos
  have hcast : (((2 : Nat) ^ 32 : Nat) : Int) = 4294967296 := by norm_num
  rw [hcast] at h0 hlt
  have hult : (v % ((2 : Nat) ^ 32 : Nat)).toNat < 2 ^ 32 := by
    omega
  simp only [int_from_bytes_signed]
  rw [to_uint_natToBytesLE4 _ hult, length_natToBytesLE]
  have h256 : (256 : Nat) ^ 4 = 4294967296 := by norm_num
  have hmod : v % ((2 : Nat) ^ 32 : Nat) = v % 4294967296 := by
    rw [hcast]
  have h31 : (2 : Int) ^ 31 = 2147483648 := by norm_num
  rw [hmod] at hult ⊢
  rw [h31] at h1 h2
  split
  · rename_i hcond
    rw [h256] at hcond
    push_cast
    omega
  · rename_i hcond
    rw [h256] at hcond
    omega

theorem asciiEncode_length (s : List Char) : (asciiEncode s).length = s.length := by
  simp [asciiEncode]

theorem utf16Encode_length_bmp (s : List Char) (h : ∀ c ∈ s, c.toNat < 65536) :
    (utf16Encode s).length = 2 * s.length := by
  induction s with
  | nil => rfl
  | cons c cs ih =>
      rw [utf16Encode_cons_bmp c cs (h c (by simp))]
      simp only [List.length_cons]
      rw [ih (fun c hc => h c (by simp [hc]))]
      omega

theorem string_write_ascii (s : List Char) (ha : pyIsAscii s = true)
    (hlen : s.length + 1 < 2 ^ 31) :
    string_write s =
      Except.ok (natToBytesLE ((((s.length : Int) + 1) % ((2 : Nat) ^ 32 : Nat)).toNat) 4 ++
        asciiEncode s ++ [0]) := by
  have hr : ¬(((s.length : Int) + 1) * (1 - 2 * 0) < -((2 : Nat) ^ (8 * 4 - 1) : Nat) ∨
      (((2 : Nat) ^ (8 * 4 - 1) : Nat) : Int) ≤ ((s.length : Int) + 1) * (1 - 2 * 0)) := by
    push_neg
    constructor <;>
    · have hc : ((2 ^ (8 * 4 - 1) : Nat) : Int) = 2147483648 := by norm_num
      rw [hc]
      omega
  simp only [string_write, ha, Bool.not_true, if_false, Bool.false_eq_true,
    int_to_bytes_signed, bind, Except.bind, List.replicate_succ, List.replicate_zero]
  rw [if_neg hr]
  norm_num

theorem string_write_utf16 (s : List Char) (ha : pyIsAscii s = false)
    (hlen : s.length + 1 < 2 ^ 31) :
    string_write s =
      Except.ok (natToBytesLE (((-((s.length : Int) + 1)) % ((2 : Nat) ^ 32 : Nat)).toNat) 4 ++
        utf16Encode s ++ [0, 0]) := by
  have hr : ¬(((s.length : Int) + 1) * (1 - 2 * 1) < -((2 : Nat) ^ (8 * 4 - 1) : Nat) ∨
      (((2 : Nat) ^ (8 * 4 - 1) : Nat) : Int) ≤ ((s.length : Int) + 1) * (1 - 2 * 1)) := by
    push_neg
    constructor <;>
    · have hc : ((2 ^ (8 * 4 - 1) : Nat) : Int) = 2147483648 := by norm_num
      rw [hc]
      omega
  simp only [string_write, ha, Bool.not_false, if_true, int_to_bytes_signed,
    bind, Except.bind, List.replicate_succ, List.replicate_zero]
  rw [if_neg hr]
  have : ((s.length : Int) + 1) * (1 - 2 * 1) = -((s.length : Int) + 1) := by ring
  rw [this]

theorem string_read_of_write_ascii (s : List Char) (ha : pyIsAscii s = true)
    (hlen : s.length + 1 < 2 ^ 31) :
    string_read (natToBytesLE ((((s.length : Int) + 1) %
        ((2 : Nat) ^ 32 : Nat)).toNat) 4 ++ asciiEncode s ++ [0]) 0 =
      Except.ok (some s, s.length + 5) := by
  set pfx := natToBytesLE ((((s.length : Int) + 1) % ((2 : Nat) ^ 32 : Nat)).toNat) 4
    with hpfx
  have hp4 : pfx.length = 4 := length_natToBytesLE _ _
  have henc : (asciiEncode s).length = s.length := asciiEncode_length s
  have hout : pfx ++ asciiEncode s ++ [0] = pfx ++ (asciiEncode s ++ [0]) :=
    List.append_assoc _ _ _
  have hsr1 : streamRead (pfx ++ asciiEncode s ++ [0]) 0 4 = pfx := by
    simp only [streamRead, List.drop_zero, hout]
    rw [List.take_left' hp4]
  have hnum : int_from_bytes_signed pfx = (s.length : Int) + 1 := by
    rw [hpfx]
    exact int_from_bytes_signed_natToBytesLE4 _ (by omega) (by
      have : ((2 : Int) ^ 31) = 2147483648 := by norm_num
      omega)
  have hsr2 : streamRead (pfx ++ asciiEncode s ++ [0]) (0 + pfx.length)
      ((((s.length : Int) + 1).natAbs - 1) * 1) = asciiEncode s := by
    have hna : ((s.length : Int) + 1).natAbs = s.length + 1 := by omega
    simp only [streamRead, hna, hout, Nat.zero_add]
    rw [List.drop_left]
    rw [Nat.mul_one, Nat.add_sub_cancel]
    rw [List.take_left' henc]
  simp only [string_read, hsr1, hnum, hp4]
  rw [if_neg (by omega : ¬((s.length : Int) + 1) = 0)]
  rw [if_neg (by omega : ¬((s.length : Int) + 1) < 0)]
  simp only [if_neg (by omega : ¬((s.length : Int) + 1) < 0)] at hsr2 ⊢
  rw [hp4] at hsr2
  rw [hsr2]
  simp only [bind, Except.bind]
  rw [asciiDecode_asciiEncode s (fun c hc => by
    have := List.all_eq_true.mp ha c hc
    simpa using this)]
  rw [henc]
  norm_num
  omega

theorem string_read_of_write_utf16 (s : List Char) (ha : pyIsAscii s = false)
    (hbmp : ∀ c ∈ s, c.toNat < 65536) (hlen : s.length + 1 < 2 ^ 31) :
    string_read (natToBytesLE (((-((s.length : Int) + 1)) %
        ((2 : Nat) ^ 32 : Nat)).toNat) 4 ++ utf16Encode s ++ [0, 0]) 0 =
      Except.ok (some s, 2 * s.length + 6) := by
  set pfx := natToBytesLE (((-((s.length : Int) + 1)) % ((2 : Nat) ^ 32 : Nat)).toNat) 4
    with hpfx
  have hp4 : pfx.length = 4 := length_natToBytesLE _ _
  have henc : (utf16Encode s).length = 2 * s.length := utf16Encode_length_bmp s hbmp
  have hout : pfx ++ utf16Encode s ++ [0, 0] = pfx ++ (utf16Encode s ++ [0, 0]) :=
    List.append_assoc _ _ _
  have hsr1 : streamRead (pfx ++ utf16Encode s ++ [0, 0]) 0 4 = pfx := by
    simp only [streamRead, List.drop_zero, hout]
    rw [List.take_left' hp4]
  have hnum : int_from_bytes_signed pfx = -((s.length : Int) + 1) := by
    rw [hpfx]
    exact int_from_bytes_signed_natToBytesLE4 _ (by
      have : ((2 : Int) ^ 31) = 2147483648 := by norm_num
      omega) (by omega)
  have hsr2 : streamRead (pfx ++ utf16Encode s ++ [0, 0]) (0 + 4)
      (((-((s.length : Int) + 1)).natAbs - 1) * 2) = utf16Encode s := by
    have hna : (-((s.length : Int) + 1)).natAbs = s.length + 1 := by omega
    simp only [streamRead, hna, hout]
    rw [show (0 + 4 : Nat) = pfx.length from by omega]
    rw [List.drop_left]
    rw [Nat.add_sub_cancel]
    rw [List.take_left' (by omega : (utf16Encode s).length = s.length * 2)]
  simp only [string_read, hsr1, hnum, hp4]
  rw [if_neg (by omega : ¬(-((s.length : Int) + 1)) = 0)]
  rw [if_pos (by omega : (-((s.length : Int) + 1)) < 0)]
  simp only [if_pos (by omega : (-((s.length : Int) + 1)) < 0)] at hsr2 ⊢
  rw [hsr2]
  simp only [bind, Except.bind]
  rw [bytesToUnits_utf16Encode s hbmp]
  dsimp only
  rw [utf16DecodeUnits_map_toNat s hbmp]
  rw [henc]
  norm_num
  omega

/-- C8 (amended): for every non-empty string whose characters all lie
in the Basic Multilingual Plane and whose length fits the 32-bit
prefix, `String.write` succeeds and emits the signed prefix
`len+1` (ASCII) or `-(len+1)` (UTF-16LE) followed by the encoded
characters and one (two for UTF-16) zero terminators, and
`String.read` on those bytes returns the original string with the
cursor exactly past the terminator (at the end of the emitted
bytes). -/
theorem string_codec_roundtrip (s : List Char) (hne : s ≠ [])
    (hbmp : ∀ c ∈ s, c.toNat < 65536) (hlen : s.length + 1 < 2 ^ 31) :
    ∃ out, string_write s = Except.ok out ∧
      int_from_bytes_signed (out.take 4) =
        (if pyIsAscii s then (s.length : Int) + 1 else -((s.length : Int) + 1)) ∧
      out = out.take 4 ++
        (if pyIsAscii s then asciiEncode s ++ [0] else utf16Encode s ++ [0, 0]) ∧
      string_read out 0 = Except.ok (some s, out.length) := by
  by_cases hA : pyIsAscii s = true
  · refine ⟨_, string_write_ascii s hA hlen, ?_, ?_, ?_⟩
    all_goals
      have hp4 : (natToBytesLE ((((s.length : Int) + 1) %
          ((2 : Nat) ^ 32 : Nat)).toNat) 4).length = 4 := length_natToBytesLE _ _
      have htk : (natToBytesLE ((((s.length : Int) + 1) %
            ((2 : Nat) ^ 32 : Nat)).toNat) 4 ++ asciiEncode s ++ [0]).take 4 =
          natToBytesLE ((((s.length : Int) + 1) % ((2 : Nat) ^ 32 : Nat)).toNat) 4 := by
        rw [List.append_assoc, List.take_left' hp4]
    · rw [htk, if_pos hA]
      exact int_from_bytes_signed_natToBytesLE4 _ (by omega) (by
        have : ((2 : Int) ^ 31) = 2147483648 := by norm_num
        omega)
    · rw [htk, if_pos hA, List.append_assoc]
    · rw [string_read_of_write_ascii s hA hlen]
      have : (natToBytesLE ((((s.length : Int) + 1) %
          ((2 : Nat) ^ 32 : Nat)).toNat) 4 ++ asciiEncode s ++ [0]).length =
          s.length + 5 := by
        simp only [List.length_append, hp4, asciiEncode_length, List.length_cons,
          List.length_nil]
        omega
      rw [this]
  · have hA' : pyIsAscii s = false := by
      cases hpa : pyIsAscii s
      · rfl
      · exact absurd hpa hA
    refine ⟨_, string_write_utf16 s hA' hlen, ?_, ?_, ?_⟩
    all_goals
      have hp4 : (natToBytesLE (((-((s.length : Int) + 1)) %
          ((2 : Nat) ^ 32 : Nat)).toNat) 4).length = 4 := length_natToBytesLE _ _
      have htk : (natToBytesLE (((-((s.length : Int) + 1)) %
            ((2 : Nat) ^ 32 : Nat)).toNat) 4 ++ utf16Encode s ++ [0, 0]).take 4 =
          natToBytesLE (((-((s.length : Int) + 1)) % ((2 : Nat) ^ 32 : Nat)).toNat) 4 := by
        rw [List.append_assoc, List.take_left' hp4]
    · rw [htk, if_neg (by simp [hA'])]
      exact int_from_bytes_signed_natToBytesLE4 _ (by
        have : ((2 : Int) ^ 31) = 2147483648 := by norm_num
        omega) (by omega)
    · rw [htk, if_neg (by simp [hA']), List.append_assoc]
    · rw [string_read_of_write_utf16 s hA' hbmp hlen]
      have : (natToBytesLE (((-((s.length : Int) + 1)) %
          ((2 : Nat) ^ 32 : Nat)).toNat) 4 ++ utf16Encode s ++ [0, 0]).length =
          2 * s.length + 6 := by
        simp only [List.length_append, hp4, utf16Encode_length_bmp s hbmp,
          List.length_cons, List.length_nil]
        omega
      rw [this]

/-- Witness for C8 (amended): the two-character ASCII string "ab"
round-trips: prefix 3, payload "ab", one terminator, cursor 7. -/
theorem string_codec_roundtrip_witness :
    ∃ out, string_write ['a', 'b'] = Except.ok out ∧
      int_from_bytes_signed (out.take 4) =
        (if pyIsAscii ['a', 'b'] then ((['a', 'b'] : List Char).length : Int) + 1
          else -(((['a', 'b'] : List Char).length : Int) + 1)) ∧
      out = out.take 4 ++
        (if pyIsAscii ['a', 'b'] then asciiEncode ['a', 'b'] ++ [0]
          else utf16Encode ['a', 'b'] ++ [0, 0]) ∧
      string_read out 0 = Except.ok (some ['a', 'b'], out.length) :=
  string_codec_roundtrip ['a', 'b'] (by decide) (by decide) (by decide)

set_option maxRecDepth 100000 in
/-- C1 (counterexample): the round trip is not universal. The package
`c1BadA`/`c1UX` loads successfully under 4.16, but `Uasset.save`
recomputes the stored `depends_offset` field from the write position,
so the saved `.uasset` differs from the input bytes. -/
theorem uasset_save_roundtrip_counterexample :
    uasset_load c1V c1BadA c1UX = Except.ok c1BadSt ∧
      uasset_save c1BadSt = Except.ok (c1A, some c1UX) ∧ c1A ≠ c1BadA :=
  ⟨by decide, by decide, by decide⟩

set_option maxRecDepth 100000 in
/-- C1 (amended): for a package whose stored derived fields agree with
the positions `Uasset.save` recomputes, the round trip does hold:
loading the canonical 4.16 asset `c1A`/`c1UX` yields `c1St`, and saving
`c1St` reproduces both physical files byte-for-byte. -/
theorem uasset_save_roundtrip_canonical :
    uasset_load c1V c1A c1UX = Except.ok c1St ∧
      uasset_save c1St = Except.ok (c1A, some c1UX) :=
  ⟨by decide, by decide⟩
